import Mathlib

/-!
# Verification of the ProGamerGUI Builder code-generation and state subsystems

A shallow embedding, in Lean 4, of the parts of the repository that the
specification's testable properties talk about:

* `generators/base_generator.py` — identifier sanitization
  (`sanitize_name`), variable-name resolution (`resolve_variable_names`),
  project assembly (`generate_project`) and the generator registry
  (`register_generator` / `get_generator`);
* `generators/pyqt6_generator.py` and `generators/tkinter_generator.py` —
  the concrete generators (import assembly, per-widget code emission,
  handler emission, main-file assembly);
* `core/state_manager.py` — widget add/remove/update, undo snapshots, the
  widget-id counter and project loading;
* `core/project_manager.py` — project-document validation and opening.

Python `dict`s are modelled as association lists with first-match lookup
and in-place overwrite insertion; Python strings are Lean `String`s;
Python `int` rendering in f-strings is modelled by `natStr` / `intStr`;
fallible Python code (statements that can raise) is modelled with
`Option`.
-/

namespace PGB

/-! ## Python dictionaries as association lists -/

/-- Python `dict` lookup `m.get(k)`: the value at the first (hence, with
`dictInsert` discipline, only) matching key. -/
def dictGet? {α : Type} (m : List (String × α)) (k : String) : Option α :=
  match m with
  | [] => none
  | (k', v) :: rest => if k' = k then some v else dictGet? rest k

/-- Python `dict` write `m[k] = v`: replaces the value of an existing key in
place, otherwise appends a new entry (insertion order is preserved). -/
def dictInsert {α : Type} (m : List (String × α)) (k : String) (v : α) :
    List (String × α) :=
  match m with
  | [] => [(k, v)]
  | (k', v') :: rest =>
    if k' = k then (k, v) :: rest else (k', v') :: dictInsert rest k v

/-- Python `k in m`. -/
def dictHasKey {α : Type} (m : List (String × α)) (k : String) : Bool :=
  (dictGet? m k).isSome

/-! ## Decimal rendering of numbers (Python `str(n)` in f-strings) -/

/-- Fuel-driven accumulator loop producing the decimal digit characters of
`n` in front of `acc`; the fuel argument only makes the recursion
structural, `natChars` always supplies enough of it. -/
def natCharsGo : Nat → Nat → List Char → List Char
  | 0, _, acc => acc
  | f + 1, n, acc =>
    if n < 10 then Nat.digitChar n :: acc
    else natCharsGo f (n / 10) (Nat.digitChar (n % 10) :: acc)

/-- The decimal digit characters of `n`, most significant first, as Python
`str` renders a non-negative integer. -/
def natChars (n : Nat) : List Char :=
  natCharsGo (n + 1) n []

/-- Python `str(n)` / f-string rendering of a non-negative integer. -/
def natStr (n : Nat) : String :=
  ⟨natChars n⟩

/-- Python f-string rendering of an integer. -/
def intStr (i : Int) : String :=
  if i < 0 then "-" ++ natStr i.natAbs else natStr i.natAbs

/-! ## The IR data model consumed by generators

Widgets and the main window are Python dicts read exclusively through
`.get(key, default)`; each key a generator reads becomes an `Option` field
(`none` = key absent), and every `.get` call site becomes `field.getD
default`. -/

/-- `action` descriptor: `{type, target}` read via `.get`. -/
structure Action where
  type_ : Option String
  target : Option String
deriving DecidableEq

/-- `font` property group: `{family, size, bold, italic}`. -/
structure Font where
  family : Option String
  size : Option Int
  bold : Option Bool
  italic : Option Bool
deriving DecidableEq

/-- Truthiness of the Python dict `properties.get("font", {})`: the key is
present and the dict is non-empty. -/
def fontTruthy : Option Font → Bool
  | none => false
  | some f => f.family.isSome || f.size.isSome || f.bold.isSome || f.italic.isSome

/-- Named-slot color map (`colors` property group). -/
structure Colors where
  background : Option String
  foreground : Option String
  border : Option String
  text : Option String
deriving DecidableEq

/-- Truthiness of the Python dict `properties.get("colors", {})`. -/
def colorsTruthy : Option Colors → Bool
  | none => false
  | some c => c.background.isSome || c.foreground.isSome || c.border.isSome || c.text.isSome

/-- Truthiness of `colors.get(slot)`: present and a non-empty string. -/
def strTruthy : Option String → Bool
  | none => false
  | some s => !s.isEmpty

/-- One entry of the `tab_data` list. -/
structure Tab where
  title : Option String
deriving DecidableEq

/-- The `properties` dict of a widget or of the main window, restricted to
the keys the generators read. -/
structure Props where
  title : Option String
  name : Option String
  text : Option String
  geometry : Option (Int × Int × Int × Int)
  placeholder : Option String
  readonly : Option Bool
  word_wrap : Option Bool
  checked : Option Bool
  items : Option (List String)
  minimum : Option Int
  maximum : Option Int
  value : Option Int
  orientation : Option String
  group : Option String
  tab_data : Option (List Tab)
  action : Option Action
  enabled : Option Bool
  visible : Option Bool
  font : Option Font
  colors : Option Colors
deriving DecidableEq

/-- The empty `properties` dict (`widget.get("properties", {})` fallback). -/
def Props.empty : Props :=
  ⟨none, none, none, none, none, none, none, none, none, none, none, none,
   none, none, none, none, none, none, none, none⟩

/-- One widget of the IR. -/
structure Widget where
  id : Option String
  type_ : Option String
  properties : Option Props
deriving DecidableEq

/-- `widget.get("properties", {})`. -/
def Widget.props (w : Widget) : Props :=
  w.properties.getD Props.empty

/-- The `main_window` entity (keys the generators read). -/
structure MainWindow where
  properties : Option Props
deriving DecidableEq

/-- `main_window.get("properties", {})`. -/
def MainWindow.props (m : MainWindow) : Props :=
  m.properties.getD Props.empty

/-- The project IR handed to a generator (keys the generators read). -/
structure Project where
  name : Option String
  main_window : Option MainWindow
  widgets : Option (List Widget)
deriving DecidableEq

/-! ## `BaseGenerator` shared helpers -/

/-- A character kept verbatim by `re.sub(r'[^a-zA-Z0-9_]', '_', name)`. -/
def isWordChar (c : Char) : Bool :=
  c.isAlpha || c.isDigit || c = '_'

/-- `BaseGenerator.sanitize_name`: replace every character outside
`[a-zA-Z0-9_]` with `'_'`, prefix `'_'` when the first character is a
digit, and fall back to `"widget"` when the result is empty. -/
def sanitize_name (name : String) : String :=
  let sanitized := name.data.map (fun c => if isWordChar c then c else '_')
  let sanitized :=
    match sanitized with
    | [] => []
    | c :: cs => if c.isDigit then '_' :: c :: cs else c :: cs
  if sanitized.isEmpty then "widget" else ⟨sanitized⟩

/-- The collision-suffixed name `f"{base_name}_{name_counts[base_name]}"`. -/
def mkSfx (b : String) (k : Nat) : String :=
  b ++ "_" ++ natStr k

/-- The sanitized base name of a widget:
`sanitize_name(widget.get("properties", {}).get("name", "widget"))`. -/
def widgetBase (w : Widget) : String :=
  sanitize_name (w.props.name.getD "widget")

/-- The loop body of `BaseGenerator.resolve_variable_names`: `counts` is
the `name_counts` dict, `resolved` the `resolved_names` dict. -/
def resolveAux : List Widget → List (String × Nat) → List (String × String) →
    List (String × String)
  | [], _, resolved => resolved
  | w :: rest, counts, resolved =>
    let widget_id := w.id.getD ""
    let base_name := widgetBase w
    match dictGet? counts base_name with
    | some n =>
      resolveAux rest (dictInsert counts base_name (n + 1))
        (dictInsert resolved widget_id (mkSfx base_name (n + 1)))
    | none =>
      resolveAux rest (dictInsert counts base_name 0)
        (dictInsert resolved widget_id base_name)

/-- `BaseGenerator.resolve_variable_names`: widget id → resolved unique
variable name. -/
def resolve_variable_names (widgets : List Widget) : List (String × String) :=
  resolveAux widgets [] []

/-- Modelled from the spec (§4.3 identifier resolution, for comparison
with the code's `resolve_variable_names`): in project order, a widget
whose sanitized base has `k` earlier occurrences keeps the base when
`k = 0` and receives `base_k` otherwise (`k` starts at 1 for the second
occurrence). -/
def resolveSpecAux : List Widget → List String → List (String × String) →
    List (String × String)
  | [], _, resolved => resolved
  | w :: rest, seen, resolved =>
    let widget_id := w.id.getD ""
    let base_name := widgetBase w
    let k := seen.count base_name
    let final := if k = 0 then base_name else mkSfx base_name k
    resolveSpecAux rest (seen ++ [base_name]) (dictInsert resolved widget_id final)

/-- The spec-worded resolution algorithm (entry point). -/
def resolveSpec (widgets : List Widget) : List (String × String) :=
  resolveSpecAux widgets [] []

/-- A widget with just an id and a declared name, as used in concrete
test inputs. -/
def sampleWidget (i nm : String) : Widget :=
  ⟨some i, some "Button", some { Props.empty with name := some nm }⟩

/-- A widget with an id, a type and a declared name, as used in concrete
test inputs. -/
def sampleTyped (i ty nm : String) : Widget :=
  ⟨some i, some ty, some { Props.empty with name := some nm }⟩

/-- The resolved mapping sends no two distinct widget ids to the same
variable name. -/
def InjOnIds (m : List (String × String)) : Prop :=
  ∀ id₁ id₂ v, id₁ ≠ id₂ → dictGet? m id₁ = some v → dictGet? m id₂ ≠ some v

/-- `v` occurs as a value of the mapping `m`. -/
def IsVal (m : List (String × String)) (v : String) : Prop :=
  ∃ i, dictGet? m i = some v

/-! ## PyQt6 generator (`generators/pyqt6_generator.py`) -/

/-- Python `s.replace('"', '\\"')` used when emitting quoted literals. -/
def escQuote (s : String) : String :=
  ⟨s.data.flatMap (fun c => if c = '"' then ['\\', '"'] else [c])⟩

/-- Python `s.replace(" ", "")` applied to the project name. -/
def removeSpaces (s : String) : String :=
  ⟨s.data.filter (fun c => c ≠ ' ')⟩

/-- `PyQt6Generator.widget_class_map`. -/
def pyqt6_widget_class_map : List (String × String) :=
  [("Button", "QPushButton"), ("Label", "QLabel"), ("Entry", "QLineEdit"),
   ("Text", "QTextEdit"), ("Checkbox", "QCheckBox"),
   ("RadioButton", "QRadioButton"), ("ComboBox", "QComboBox"),
   ("ListBox", "QListWidget"), ("Frame", "QFrame"), ("Tabs", "QTabWidget"),
   ("Slider", "QSlider"), ("ProgressBar", "QProgressBar"),
   ("SpinBox", "QSpinBox"), ("ScrollArea", "QScrollArea"),
   ("GroupBox", "QGroupBox"), ("Splitter", "QSplitter"),
   ("StackedWidget", "QStackedWidget")]

/-- `generate_geometry_code`: `f"{x}, {y}, {width}, {height}"`. -/
def generate_geometry_code (g : Int × Int × Int × Int) : String :=
  intStr g.1 ++ ", " ++ intStr g.2.1 ++ ", " ++ intStr g.2.2.1 ++ ", " ++
    intStr g.2.2.2

/-- `PyQt6Generator.generate_font_code`: `f'"{family}", {size}'`. -/
def pyqt6_generate_font_code (font_data : Font) : String :=
  "\"" ++ font_data.family.getD "Arial" ++ "\", " ++ intStr (font_data.size.getD 9)

/-- `BaseGenerator.format_code`: strip, split into lines, and indent all
non-blank lines by four spaces per level. -/
def format_code (code : String) (indent_level : Nat) : String :=
  let lines := code.trim.splitOn "\n"
  let indent := String.join (List.replicate indent_level "    ")
  String.intercalate "\n"
    (lines.map (fun line => if line.trim.isEmpty then "" else indent ++ line))

/-- `PyQt6Generator.generate_widget_specific_code`. -/
def pyqt6_generate_widget_specific_code (widget_type : String)
    (widget_data : Widget) (var_ref : String) : String :=
  let properties := widget_data.props
  let code_parts : List String :=
    if widget_type = "Entry" then
      (match properties.placeholder with
       | some p => [var_ref ++ ".setPlaceholderText(\"" ++ escQuote p ++ "\")"]
       | none => []) ++
      (if properties.readonly.getD false then
        [var_ref ++ ".setReadOnly(True)"] else [])
    else if widget_type = "Text" then
      (if properties.readonly.getD false then
        [var_ref ++ ".setReadOnly(True)"] else []) ++
      (if !(properties.word_wrap.getD true) then
        [var_ref ++ ".setWordWrapMode(QTextOption.WrapMode.NoWrap)"] else [])
    else if widget_type = "Checkbox" ∨ widget_type = "RadioButton" then
      if properties.checked.getD false then
        [var_ref ++ ".setChecked(True)"] else []
    else if widget_type = "ComboBox" ∨ widget_type = "ListBox" then
      let items := properties.items.getD []
      if !items.isEmpty then
        [var_ref ++ ".addItems([" ++
          String.intercalate ", " (items.map (fun it => "\"" ++ it ++ "\"")) ++
          "])"]
      else []
    else if widget_type = "Slider" then
      let minimum := properties.minimum.getD 0
      let maximum := properties.maximum.getD 100
      let value := properties.value.getD 50
      let orientation := properties.orientation.getD "horizontal"
      let qt_orientation :=
        if orientation = "horizontal" then "Qt.Orientation.Horizontal"
        else "Qt.Orientation.Vertical"
      [var_ref ++ ".setOrientation(" ++ qt_orientation ++ ")",
       var_ref ++ ".setMinimum(" ++ intStr minimum ++ ")",
       var_ref ++ ".setMaximum(" ++ intStr maximum ++ ")",
       var_ref ++ ".setValue(" ++ intStr value ++ ")"]
    else if widget_type = "ProgressBar" then
      let minimum := properties.minimum.getD 0
      let maximum := properties.maximum.getD 100
      let value := properties.value.getD 0
      [var_ref ++ ".setMinimum(" ++ intStr minimum ++ ")",
       var_ref ++ ".setMaximum(" ++ intStr maximum ++ ")",
       var_ref ++ ".setValue(" ++ intStr value ++ ")"]
    else if widget_type = "SpinBox" then
      let minimum := properties.minimum.getD 0
      let maximum := properties.maximum.getD 99
      let value := properties.value.getD 0
      [var_ref ++ ".setMinimum(" ++ intStr minimum ++ ")",
       var_ref ++ ".setMaximum(" ++ intStr maximum ++ ")",
       var_ref ++ ".setValue(" ++ intStr value ++ ")"]
    else if widget_type = "Tabs" then
      let tab_data := properties.tab_data.getD []
      tab_data.enum.flatMap (fun p =>
        let i := p.1
        let tab_title := escQuote (p.2.title.getD ("Tab " ++ natStr (i + 1)))
        ["tab_" ++ natStr i ++ " = QWidget()",
         var_ref ++ ".addTab(tab_" ++ natStr i ++ ", \"" ++ tab_title ++ "\")"])
    else []
  String.intercalate "\n" code_parts

/-- `PyQt6Generator.generate_common_properties_code`. -/
def pyqt6_generate_common_properties_code (widget_data : Widget)
    (var_ref : String) : String :=
  let properties := widget_data.props
  let code_parts : List String :=
    (if !(properties.enabled.getD true) then
      [var_ref ++ ".setEnabled(False)"] else []) ++
    (if !(properties.visible.getD true) then
      [var_ref ++ ".setVisible(False)"] else []) ++
    (if fontTruthy properties.font then
      let font_data := properties.font.getD ⟨none, none, none, none⟩
      [var_ref ++ "_font = QFont(" ++ pyqt6_generate_font_code font_data ++ ")"] ++
      (if font_data.bold.getD false then
        [var_ref ++ "_font.setBold(True)"] else []) ++
      (if font_data.italic.getD false then
        [var_ref ++ "_font.setItalic(True)"] else []) ++
      [var_ref ++ ".setFont(" ++ var_ref ++ "_font)"]
     else []) ++
    (if colorsTruthy properties.colors then
      let colors := properties.colors.getD ⟨none, none, none, none⟩
      let style_parts : List String :=
        (match colors.background with
         | some c => ["background-color: " ++ c]
         | none => []) ++
        (match colors.foreground with
         | some c => ["color: " ++ c]
         | none => []) ++
        (match colors.border with
         | some c => ["border: 1px solid " ++ c]
         | none => [])
      if !style_parts.isEmpty then
        [var_ref ++ ".setStyleSheet(\"" ++
          String.intercalate "; " style_parts ++ ";\")"]
      else []
     else [])
  String.intercalate "\n" code_parts

/-- The `code_parts` list built by `PyQt6Generator.generate_widget_code`
before the final join. -/
def pyqt6_widget_code_parts (widget_data : Widget) (parent_var : String) :
    List String :=
  let widget_type := widget_data.type_.getD ""
  let properties := widget_data.props
  let qt_class := (dictGet? pyqt6_widget_class_map widget_type).getD "QWidget"
  let var_name := sanitize_name (properties.name.getD "widget")
  let var_ref := parent_var ++ "." ++ var_name
  let creation :=
    if widget_type = "Button" ∨ widget_type = "Label" ∨
        widget_type = "Checkbox" ∨ widget_type = "RadioButton" ∨
        widget_type = "GroupBox" then
      let text := properties.text.getD ""
      [var_ref ++ " = " ++ qt_class ++ "(\"" ++ text ++ "\", " ++
        parent_var ++ ".central_widget)"]
    else
      [var_ref ++ " = " ++ qt_class ++ "(" ++ parent_var ++ ".central_widget)"]
  let geometry := properties.geometry.getD (0, 0, 100, 50)
  let widget_specific_code :=
    pyqt6_generate_widget_specific_code widget_type widget_data var_ref
  let common_code := pyqt6_generate_common_properties_code widget_data var_ref
  creation ++
  [var_ref ++ ".setGeometry(" ++ generate_geometry_code geometry ++ ")"] ++
  (if !widget_specific_code.isEmpty then [widget_specific_code] else []) ++
  (if !common_code.isEmpty then [common_code] else [])

/-- `PyQt6Generator.generate_widget_code`. -/
def pyqt6_generate_widget_code (widget_data : Widget) (parent_var : String) :
    String :=
  String.intercalate "\n" (pyqt6_widget_code_parts widget_data parent_var)

/-- `PyQt6Generator.generate_button_handler`. -/
def pyqt6_generate_button_handler (button_name : String) (action : Action) :
    String :=
  let method_name := "on_" ++ button_name ++ "_clicked"
  let action_type := action.type_.getD "none"
  let code :=
    ["    def " ++ method_name ++ "(self):",
     "        \"\"\"Handle " ++ button_name ++ " click event.\"\"\""] ++
    (if action_type = "message" then
      let target := action.target.getD "Hello!"
      ["        from PyQt6.QtWidgets import QMessageBox",
       "        QMessageBox.information(self, \"Message\", \"" ++ target ++ "\")"]
     else if action_type = "function" then
      let target := action.target.getD "custom_function"
      ["        self." ++ target ++ "()"]
     else
      ["        # TODO: Implement " ++ action_type ++ " action",
       "        pass"])
  String.intercalate "\n" code

/-- `PyQt6Generator.generate_event_handlers`. -/
def pyqt6_generate_event_handlers (widgets : List Widget)
    (var_names : List (String × String)) : String :=
  let handlers := widgets.flatMap (fun widget =>
    let widget_type := widget.type_.getD ""
    let properties := widget.props
    let widget_id := widget.id.getD ""
    match dictGet? var_names widget_id with
    | some var_name =>
      if widget_type = "Button" then
        let action := properties.action.getD ⟨none, none⟩
        if action.type_ ≠ some "none" then
          [pyqt6_generate_button_handler var_name action]
        else []
      else []
    | none => [])
  String.intercalate "\n" handlers

/-- `PyQt6Generator.generate_class_definition` (the generated
`generate_main_layout_code` is always the empty, hence falsy, string and
its `if` branch is never taken). -/
def pyqt6_generate_class_definition (class_name : String)
    (main_window_data : MainWindow) (widgets : List Widget)
    (var_names : List (String × String)) : String :=
  let properties := main_window_data.props
  let title := properties.title.getD "My Application"
  let geometry := properties.geometry.getD (100, 100, 800, 600)
  let code :=
    ["class " ++ class_name ++ "(QMainWindow):",
     "    \"\"\"Main application window.\"\"\"",
     "",
     "    def __init__(self):",
     "        super().__init__()",
     "        self.setWindowTitle(\"" ++ title ++ "\")",
     "        self.setGeometry(" ++ generate_geometry_code geometry ++ ")",
     "",
     "        # Setup central widget",
     "        self.central_widget = QWidget()",
     "        self.setCentralWidget(self.central_widget)",
     "",
     "        self.setup_ui()",
     "",
     "    def setup_ui(self):",
     "        \"\"\"Initialize the user interface.\"\"\""]
  let code := code ++ widgets.flatMap (fun widget =>
    let widget_id := widget.id.getD ""
    if (dictGet? var_names widget_id).isSome then
      ["", format_code (pyqt6_generate_widget_code widget "self") 2]
    else [])
  let event_handlers := pyqt6_generate_event_handlers widgets var_names
  let code := code ++ (if !event_handlers.isEmpty then ["", event_handlers] else [])
  String.intercalate "\n" code

/-- The multiset of Qt widget classes collected by
`PyQt6Generator.generate_imports` (base classes, the mapped class of every
used widget type, layout classes) before set-deduplication and sorting. -/
def pyqt6_widget_classes (widgets : List Widget) : List String :=
  ["QApplication", "QMainWindow", "QWidget"] ++
  widgets.filterMap (fun w =>
    match w.type_ with
    | some t => dictGet? pyqt6_widget_class_map t
    | none => none) ++
  ["QVBoxLayout", "QHBoxLayout", "QGridLayout"]

/-- Python `sorted(<set of strings>)`: the ascending duplicate-free
listing of the collected elements. -/
def sortedSet (l : List String) : List String :=
  l.dedup.insertionSort (· ≤ ·)

/-- Body of `PyQt6Generator.generate_imports` over the widget list. -/
def pyqt6_generate_imports_widgets (widgets : List Widget) : String :=
  let imports := ["import sys", "from PyQt6.QtWidgets import ("]
  let sorted_classes := sortedSet (pyqt6_widget_classes widgets)
  let imports := imports ++ sorted_classes.enum.map (fun p =>
    let suffix := if p.1 < sorted_classes.length - 1 then "," else ""
    "    " ++ p.2 ++ suffix)
  let imports := imports ++ [")"] ++
    ["from PyQt6.QtCore import Qt", "from PyQt6.QtGui import QFont, QColor"]
  String.intercalate "\n" imports

/-- `PyQt6Generator.generate_imports`. -/
def pyqt6_generate_imports (project_data : Project) : String :=
  pyqt6_generate_imports_widgets (project_data.widgets.getD [])

/-- `PyQt6Generator.generate_main_function`. -/
def pyqt6_generate_main_function (class_name : String) : String :=
  "def main():\n    '''Main function to run the application.'''\n    app = QApplication(sys.argv)\n    \n    # Create and show the main window\n    window = " ++
  class_name ++
  "()\n    window.show()\n    \n    # Run the application event loop\n    sys.exit(app.exec())\n\n\nif __name__ == '__main__':\n    main()"

/-- `PyQt6Generator.generate_main_file`. -/
def pyqt6_generate_main_file (project_data : Project) : String :=
  let project_name := removeSpaces (project_data.name.getD "MyApplication")
  let main_window_data := project_data.main_window.getD ⟨none⟩
  let widgets := project_data.widgets.getD []
  let var_names := resolve_variable_names widgets
  let imports := pyqt6_generate_imports project_data
  let class_def :=
    pyqt6_generate_class_definition project_name main_window_data widgets var_names
  let main_function := pyqt6_generate_main_function project_name
  imports ++ "\n\n\n" ++ class_def ++ "\n\n\n" ++ main_function

/-- `PyQt6Generator.get_file_extension`. -/
def pyqt6_get_file_extension : String := ".py"

/-- `BaseGenerator.generate_project` instantiated at the PyQt6 generator:
the `main<ext>` entry plus `generate_additional_files` (which returns the
empty dict). -/
def pyqt6_generate_project (project_data : Project) : List (String × String) :=
  dictInsert [] ("main" ++ pyqt6_get_file_extension)
    (pyqt6_generate_main_file project_data)

/-! ## Tkinter generator (`generators/tkinter_generator.py`), widget code -/

/-- `TkinterGenerator.widget_class_map`. -/
def tkinter_widget_class_map : List (String × String) :=
  [("Button", "tk.Button"), ("Label", "tk.Label"), ("Entry", "tk.Entry"),
   ("Text", "tk.Text"), ("Checkbox", "tk.Checkbutton"),
   ("RadioButton", "tk.Radiobutton"), ("ComboBox", "ttk.Combobox"),
   ("ListBox", "tk.Listbox"), ("Frame", "tk.Frame"), ("Tabs", "ttk.Notebook"),
   ("Slider", "tk.Scale"), ("ProgressBar", "ttk.Progressbar"),
   ("SpinBox", "tk.Spinbox"), ("ScrollArea", "tk.Frame")]

/-- `TkinterGenerator.generate_widget_specific_options`. -/
def tkinter_generate_widget_specific_options (widget_type : String)
    (widget_data : Widget) : List String :=
  let properties := widget_data.props
  if widget_type = "Entry" then
    if properties.readonly.getD false then ["state=\"readonly\""] else []
  else if widget_type = "Text" then
    (if properties.readonly.getD false then ["state=\"disabled\""] else []) ++
    (if !(properties.word_wrap.getD true) then ["wrap=\"none\""] else [])
  else if widget_type = "Checkbox" then
    []
  else if widget_type = "RadioButton" then
    let group := properties.group.getD "default"
    ["variable=self." ++ group ++ "_var"]
  else if widget_type = "Button" then
    let action := properties.action.getD ⟨none, none⟩
    if action.type_ ≠ some "none" then
      let var_name := sanitize_name (properties.name.getD "widget")
      ["command=self.on_" ++ var_name ++ "_clicked"]
    else []
  else if widget_type = "Slider" then
    let minimum := properties.minimum.getD 0
    let maximum := properties.maximum.getD 100
    let orientation := properties.orientation.getD "horizontal"
    ["from_=" ++ intStr minimum, "to=" ++ intStr maximum,
     "orient=\"" ++ orientation ++ "\"", "length=200"]
  else if widget_type = "SpinBox" then
    let minimum := properties.minimum.getD 0
    let maximum := properties.maximum.getD 99
    let value := properties.value.getD 0
    ["from_=" ++ intStr minimum, "to=" ++ intStr maximum,
     "value=" ++ intStr value]
  else []

/-- `TkinterGenerator.generate_widget_post_creation_code`. -/
def tkinter_generate_widget_post_creation_code (widget_type : String)
    (widget_data : Widget) (var_ref : String) : String :=
  let properties := widget_data.props
  let code_parts : List String :=
    if widget_type = "Entry" ∧ properties.placeholder.isSome then
      let placeholder := escQuote (properties.placeholder.getD "")
      [var_ref ++ ".insert(0, \"" ++ placeholder ++ "\")",
       var_ref ++ ".configure(fg=\"grey\")",
       var_ref ++ ".bind(\"<FocusIn>\", lambda e: self.clear_placeholder(" ++
         var_ref ++ ", \"" ++ placeholder ++ "\"))",
       var_ref ++ ".bind(\"<FocusOut>\", lambda e: self.restore_placeholder(" ++
         var_ref ++ ", \"" ++ placeholder ++ "\"))"]
    else if widget_type = "ComboBox" ∨ widget_type = "ListBox" then
      let items := properties.items.getD []
      if !items.isEmpty ∧ widget_type = "ComboBox" then
        [var_ref ++ "[\"values\"] = (" ++
          String.intercalate ", " (items.map (fun it => "\"" ++ it ++ "\"")) ++ ")"]
      else if !items.isEmpty ∧ widget_type = "ListBox" then
        items.map (fun it => var_ref ++ ".insert(\"end\", \"" ++ it ++ "\")")
      else []
    else if widget_type = "Checkbox" ∧ properties.checked.getD false then
      [var_ref ++ ".select()"]
    else if widget_type = "RadioButton" then
      let group := properties.group.getD "default"
      ["if not hasattr(self, \"" ++ group ++ "_var\"): self." ++ group ++
        "_var = tk.StringVar()"] ++
      (if properties.checked.getD false then
        let var_name := sanitize_name (properties.name.getD "widget")
        ["self." ++ group ++ "_var.set(\"" ++ var_name ++ "\")"]
       else [])
    else if widget_type = "Tabs" then
      let tab_data := properties.tab_data.getD []
      tab_data.enum.flatMap (fun p =>
        let i := p.1
        let tab_title := escQuote (p.2.title.getD ("Tab " ++ natStr (i + 1)))
        ["tab_" ++ natStr i ++ " = tk.Frame(" ++ var_ref ++ ")",
         var_ref ++ ".add(tab_" ++ natStr i ++ ", text=\"" ++ tab_title ++ "\")"])
    else if widget_type = "ProgressBar" then
      let maximum := properties.maximum.getD 100
      let value := properties.value.getD 0
      [var_ref ++ "[\"maximum\"] = " ++ intStr maximum,
       var_ref ++ "[\"value\"] = " ++ intStr value]
    else []
  String.intercalate "\n" code_parts

/-- The `options` list assembled by `TkinterGenerator.generate_widget_code`
(text, colors, font and widget-specific options). -/
def tkinter_widget_options (widget_data : Widget) : List String :=
  let widget_type := widget_data.type_.getD ""
  let properties := widget_data.props
  let colors := properties.colors.getD ⟨none, none, none, none⟩
  (if (widget_type = "Button" ∨ widget_type = "Label" ∨
        widget_type = "Checkbox" ∨ widget_type = "RadioButton") ∧
      properties.text.isSome then
    ["text=\"" ++ escQuote (properties.text.getD "") ++ "\""]
   else []) ++
  (if strTruthy colors.background then
    ["bg=\"" ++ colors.background.getD "" ++ "\""] else []) ++
  (if strTruthy colors.foreground then
    ["fg=\"" ++ colors.foreground.getD "" ++ "\""] else []) ++
  (if fontTruthy properties.font then
    let font_data := properties.font.getD ⟨none, none, none, none⟩
    let weight := if font_data.bold.getD false then "bold" else "normal"
    let slant := if font_data.italic.getD false then "italic" else "roman"
    ["font=(\"" ++ font_data.family.getD "Arial" ++ "\", " ++
      intStr (font_data.size.getD 9) ++ ", \"" ++ weight ++ "\", \"" ++
      slant ++ "\")"]
   else []) ++
  tkinter_generate_widget_specific_options widget_type widget_data

/-- The `code_parts` list built by `TkinterGenerator.generate_widget_code`
before the final join. -/
def tkinter_widget_code_parts (widget_data : Widget) (parent_var : String) :
    List String :=
  let widget_type := widget_data.type_.getD ""
  let properties := widget_data.props
  let tk_class := (dictGet? tkinter_widget_class_map widget_type).getD "tk.Widget"
  let var_name := sanitize_name (properties.name.getD "widget")
  let options : List String := tkinter_widget_options widget_data
  let parent_ref := if parent_var = "self" then parent_var ++ ".root" else parent_var
  let options_str := String.intercalate ", " options
  let creation :=
    if !options_str.isEmpty then
      [parent_var ++ "." ++ var_name ++ " = " ++ tk_class ++ "(" ++
        parent_ref ++ ", " ++ options_str ++ ")"]
    else
      [parent_var ++ "." ++ var_name ++ " = " ++ tk_class ++ "(" ++
        parent_ref ++ ")"]
  let geometry := properties.geometry.getD (0, 0, 100, 50)
  let post_code := tkinter_generate_widget_post_creation_code widget_type
    widget_data (parent_var ++ "." ++ var_name)
  creation ++
  [parent_var ++ "." ++ var_name ++ ".place(x=" ++ intStr geometry.1 ++
    ", y=" ++ intStr geometry.2.1 ++ ", width=" ++ intStr geometry.2.2.1 ++
    ", height=" ++ intStr geometry.2.2.2 ++ ")"] ++
  (if !post_code.isEmpty then [post_code] else []) ++
  (if !(properties.enabled.getD true) then
    [parent_var ++ "." ++ var_name ++ ".configure(state=\"disabled\")"]
   else [])

/-- `TkinterGenerator.generate_widget_code`. -/
def tkinter_generate_widget_code (widget_data : Widget) (parent_var : String) :
    String :=
  String.intercalate "\n" (tkinter_widget_code_parts widget_data parent_var)

/-! ## Generator registry (`base_generator.py`, module level) -/

/-- The two generator objects registered at import time. -/
inductive GeneratorKind where
  | pyqt6
  | tkinter
deriving DecidableEq

/-- The module-level `_GENERATORS_REGISTRY` after the two
`register_generator` calls run at import of `pyqt6_generator.py` and
`tkinter_generator.py`. -/
def generators_registry : List (String × GeneratorKind) :=
  dictInsert (dictInsert [] "PyQt6" GeneratorKind.pyqt6)
    "Tkinter" GeneratorKind.tkinter

/-- `get_generator`: `_GENERATORS_REGISTRY.get(framework_name)` — a plain
dict lookup returning `None` when the key is absent. -/
def get_generator (framework_name : String) : Option GeneratorKind :=
  dictGet? generators_registry framework_name

/-! ## State manager (`core/state_manager.py`)

Python values stored in the project/widget dicts are modelled by `PVal`;
a widget's data and the project document are string-keyed dicts.  The
embedded operations are functional: each returns the new state, and
operations whose Python body can raise return `Option` (`none` = an
exception escapes; exceptions part-way through a mutation sequence are
not modelled, no claim exercises them).  Qt signal emissions and logging
are omitted (no state). -/

/-- A Python value as stored in project documents and widget dicts. -/
inductive PVal where
  | str (s : String)
  | int (n : Int)
  | bool (b : Bool)
  | num (q : Rat)
  | list (l : List PVal)
  | obj (m : List (String × PVal))
  | none_

/-- A widget's data dict / a generic string-keyed dict of `PVal`s. -/
abbrev PDict := List (String × PVal)

/-- Python `dict.update`: write every key of `upd` into `cur`, in order. -/
def dictUpdate (cur upd : PDict) : PDict :=
  upd.foldl (fun acc p => dictInsert acc p.1 p.2) cur

/-- Python `del m[k]`. -/
def dictRemove {α : Type} (m : List (String × α)) (k : String) :
    List (String × α) :=
  m.filter (fun p => p.1 ≠ k)

/-- The snapshot captured by `StateManager.get_current_state` (deep copies
become plain values here). -/
structure Snapshot where
  project_data : PDict
  widgets : List (String × PDict)
  widget_counter : Nat
  selected_widget_id : Option String
  canvas_settings : PDict
  layer_config : PDict

/-- The mutable fields of `StateManager` that the embedded operations
touch. -/
structure SMState where
  project_data : PDict
  project_path : Option String
  target_framework : String
  widgets : List (String × PDict)
  widget_counter : Nat
  selected_widget_id : Option String
  undo_stack : List Snapshot
  redo_stack : List Snapshot
  max_undo_levels : Nat
  unsaved_changes : Bool
  canvas_settings : PDict
  layer_config : PDict

/-- `StateManager.get_current_state`. -/
def get_current_state (st : SMState) : Snapshot :=
  ⟨st.project_data, st.widgets, st.widget_counter, st.selected_widget_id,
   st.canvas_settings, st.layer_config⟩

/-- `StateManager.save_initial_state`: push a snapshot, truncating to
`max_undo_levels` (no redo clear, no unsaved flag). -/
def save_initial_state (st : SMState) : SMState :=
  let undo := st.undo_stack ++ [get_current_state st]
  let undo := if undo.length > st.max_undo_levels then undo.drop 1 else undo
  { st with undo_stack := undo }

/-- `StateManager.save_state`: push a snapshot, clear the redo stack,
truncate, and mark unsaved changes. -/
def save_state (st : SMState) : SMState :=
  let undo := st.undo_stack ++ [get_current_state st]
  let undo := if undo.length > st.max_undo_levels then undo.drop 1 else undo
  { st with undo_stack := undo, redo_stack := [], unsaved_changes := true }

/-- The dict literal `StateManager.new_project` assigns to
`self.project_data`. -/
def new_project_data (framework : String) (canvas layer : PDict) : PDict :=
  [("name", PVal.str "New Project"),
   ("framework", PVal.str framework),
   ("version", PVal.str "1.0"),
   ("main_window", PVal.obj
     [("id", PVal.str "main_window"),
      ("type", PVal.str "MainWindow"),
      ("properties", PVal.obj
        [("title", PVal.str "My Application"),
         ("geometry", PVal.list
           [PVal.int 100, PVal.int 100, PVal.int 800, PVal.int 600]),
         ("resizable", PVal.bool true),
         ("colors", PVal.obj
           [("background", PVal.str "#F0F0F0"),
            ("text", PVal.str "#000000")])])]),
   ("widgets", PVal.obj []),
   ("canvas_settings", PVal.obj canvas),
   ("layer_config", PVal.obj layer)]

/-- `StateManager.new_project`. -/
def new_project (st : SMState) : SMState :=
  let st := { st with
    project_data :=
      new_project_data st.target_framework st.canvas_settings st.layer_config,
    widgets := [],
    widget_counter := 0,
    selected_widget_id := none,
    project_path := none,
    unsaved_changes := false,
    undo_stack := [],
    redo_stack := [] }
  save_initial_state st

/-- `self.canvas_settings` as initialized in `StateManager.__init__`. -/
def initial_canvas_settings : PDict :=
  [("grid_size", PVal.int 20), ("grid_visible", PVal.bool true),
   ("snap_enabled", PVal.bool true), ("zoom_level", PVal.num 1)]

/-- `self.layer_config` as initialized in `StateManager.__init__`. -/
def initial_layer_config : PDict :=
  [("total_layers", PVal.int 5),
   ("layer_names", PVal.list
     [PVal.str "Background", PVal.str "Content", PVal.str "Controls",
      PVal.str "Overlays", PVal.str "Debug"])]

/-- The state after `StateManager.__init__` (which ends in
`new_project`). -/
def initSMState : SMState :=
  new_project
    ⟨[], none, "PyQt6", [], 0, none, [], [], 50, false,
     initial_canvas_settings, initial_layer_config⟩

/-- `StateManager.add_widget`.  `none` models an escaping exception
(`properties` present but not a dict, or `type` missing / not a string —
the name default and the final log line index `widget_data['type']`). -/
def add_widget (widget_data : PDict) (st : SMState) :
    Option (String × SMState) :=
  let st := save_state st
  let widget_counter := st.widget_counter + 1
  let widget_id := "widget_" ++ natStr widget_counter
  let wd := dictInsert widget_data "id" (PVal.str widget_id)
  let wd :=
    if dictHasKey wd "properties" then wd
    else dictInsert wd "properties" (PVal.obj [])
  match dictGet? wd "properties", dictGet? wd "type" with
  | some (PVal.obj props), some (PVal.str ty) =>
    let props :=
      if dictHasKey props "name" then props
      else dictInsert props "name"
        (PVal.str (ty.toLower ++ "_" ++ natStr widget_counter))
    let props :=
      if dictHasKey props "geometry" then props
      else dictInsert props "geometry"
        (PVal.list [PVal.int 100, PVal.int 100, PVal.int 200, PVal.int 100])
    let props :=
      if dictHasKey props "layer" then props
      else dictInsert props "layer" (PVal.int 2)
    let wd := dictInsert wd "properties" (PVal.obj props)
    some (widget_id,
      { st with
        widget_counter := widget_counter,
        widgets := dictInsert st.widgets widget_id wd,
        selected_widget_id := some widget_id })
  | _, _ => none

/-- `StateManager.remove_widget`: membership is checked *first*; on a
missing id the function returns `False` without touching anything. -/
def remove_widget (widget_id : String) (st : SMState) : Bool × SMState :=
  if dictHasKey st.widgets widget_id then
    let st := save_state st
    let st := { st with widgets := dictRemove st.widgets widget_id }
    let st :=
      if st.selected_widget_id = some widget_id then
        { st with selected_widget_id := none }
      else st
    (true, st)
  else
    (false, st)

/-- Write every non-`"properties"` key of `updates` into `w`
(`for key, value in updates.items(): if key != "properties": ...`). -/
def updateExceptProps (w updates : PDict) : PDict :=
  updates.foldl
    (fun acc p => if p.1 ≠ "properties" then dictInsert acc p.1 p.2 else acc) w

/-- `StateManager.update_widget`: a *shallow* `dict.update` on the
`properties` dict, then per-key writes of the remaining update keys.
`none` models an escaping exception (a `properties` value that is not a
dict on either side). -/
def update_widget (widget_id : String) (updates : PDict) (st : SMState) :
    Option SMState :=
  match dictGet? st.widgets widget_id with
  | none => some st
  | some w =>
    match dictGet? updates "properties" with
    | some updProps =>
      let w :=
        if dictHasKey w "properties" then w
        else dictInsert w "properties" (PVal.obj [])
      match dictGet? w "properties", updProps with
      | some (PVal.obj cur), PVal.obj upd =>
        let w := dictInsert w "properties" (PVal.obj (dictUpdate cur upd))
        let w := updateExceptProps w updates
        some { st with widgets := dictInsert st.widgets widget_id w }
      | _, _ => none
    | none =>
      let w := updateExceptProps w updates
      some { st with widgets := dictInsert st.widgets widget_id w }

/-- `StateManager.update_main_window`: same shallow-merge rule applied to
`project_data["main_window"]`. -/
def update_main_window (updates : PDict) (st : SMState) : Option SMState :=
  let pd :=
    if dictHasKey st.project_data "main_window" then st.project_data
    else dictInsert st.project_data "main_window" (PVal.obj [])
  match dictGet? pd "main_window" with
  | some (PVal.obj mw) =>
    match dictGet? updates "properties" with
    | some updProps =>
      let mw :=
        if dictHasKey mw "properties" then mw
        else dictInsert mw "properties" (PVal.obj [])
      match dictGet? mw "properties", updProps with
      | some (PVal.obj cur), PVal.obj upd =>
        let mw := dictInsert mw "properties" (PVal.obj (dictUpdate cur upd))
        let mw := updateExceptProps mw updates
        some { st with project_data := dictInsert pd "main_window" (PVal.obj mw) }
      | _, _ => none
    | none =>
      let mw := updateExceptProps mw updates
      some { st with project_data := dictInsert pd "main_window" (PVal.obj mw) }
  | _ => none

/-! ## Project loading (`state_manager.py` / `project_manager.py`) -/

/-- Python `s.startswith(pre)`. -/
def strStartsWith (s pre : String) : Bool :=
  pre.data.isPrefixOf s.data

/-- Python `s.split("_")[-1]`: the part after the last underscore (the
whole string when there is none). -/
def afterLastSep (s : String) : String :=
  ⟨(s.data.reverse.takeWhile (fun c => c ≠ '_')).reverse⟩

/-- Python `int(s)` restricted to the plain digit strings produced by
well-formed widget ids; any other string models a raising call. -/
def pyIntDigits? (s : String) : Option Nat :=
  if !s.data.isEmpty && s.data.all Char.isDigit then
    some (s.data.foldl (fun a c => a * 10 + (c.toNat - '0'.toNat)) 0)
  else none

/-- The widget-dict rebuild loop of `StateManager.load_project_data`
(`for widget in project_data["widgets"]: if "id" in widget: ...`).
`none` models a raising iteration (a non-dict entry, or an id that is not
a string and hence not a key of our string-keyed model). -/
def collectWidgets : List PVal → List (String × PDict) →
    Option (List (String × PDict))
  | [], acc => some acc
  | PVal.obj w :: rest, acc =>
    match dictGet? w "id" with
    | some (PVal.str i) => collectWidgets rest (dictInsert acc i w)
    | some _ => none
    | none => collectWidgets rest acc
  | _ :: _, _ => none

/-- The filtered comprehension
`[int(w_id.split("_")[-1]) for w_id in keys if w_id.startswith("widget_")]`;
`none` models a raising `int(...)`. -/
def suffixList : List String → Option (List Nat)
  | [] => some []
  | i :: rest =>
    if strStartsWith i "widget_" then
      match pyIntDigits? (afterLastSep i), suffixList rest with
      | some n, some ns => some (n :: ns)
      | _, _ => none
    else suffixList rest

/-- The counter-rebuild expression of `load_project_data`: `max(...)` over
the comprehension; `none` models either a raising `int(...)` or `max` of
an empty sequence. -/
def rebuildCounter (keys : List String) : Option Nat :=
  match suffixList keys with
  | some sfx => sfx.max?
  | none => none

/-- The settings / framework / selection / undo tail of
`load_project_data`. -/
def loadSettings (doc : PDict) (st : SMState) : Option SMState :=
  let canvasStep : Option PDict :=
    match dictGet? doc "canvas_settings" with
    | some (PVal.obj o) => some (dictUpdate st.canvas_settings o)
    | some _ => none
    | none => some st.canvas_settings
  match canvasStep with
  | none => none
  | some canvas =>
    let layerStep : Option PDict :=
      match dictGet? doc "layer_config" with
      | some (PVal.obj o) => some (dictUpdate st.layer_config o)
      | some _ => none
      | none => some st.layer_config
    match layerStep with
    | none => none
    | some layer =>
      let fwStep : Option String :=
        match dictGet? doc "framework" with
        | some (PVal.str f) => some f
        | some _ => none
        | none => some st.target_framework
      match fwStep with
      | none => none
      | some fw =>
        some (save_initial_state
          { st with
            canvas_settings := canvas,
            layer_config := layer,
            target_framework := fw,
            selected_widget_id := none,
            unsaved_changes := false,
            undo_stack := [],
            redo_stack := [] })

/-- `StateManager.load_project_data`.  The widgets value is modelled in
its serialized (list-of-dicts) shape; `none` models an escaping
exception. -/
def load_project_data (doc : PDict) (st : SMState) : Option SMState :=
  let st := { st with project_data := doc }
  match dictGet? doc "widgets" with
  | some (PVal.list ws) =>
    match collectWidgets ws [] with
    | some widgets =>
      let st := { st with widgets := widgets }
      match widgets with
      | [] => loadSettings doc st
      | _ :: _ =>
        match rebuildCounter (widgets.map Prod.fst) with
        | some m => loadSettings doc { st with widget_counter := m }
        | none => none
    | none => none
  | some _ => none
  | none => loadSettings doc st

/-- `ProjectManager.validate_project_data`. -/
def validate_project_data (project_data : PDict) : Bool :=
  if !dictHasKey project_data "name" then false
  else if !dictHasKey project_data "framework" then false
  else if !dictHasKey project_data "main_window" then false
  else
    match dictGet? project_data "widgets" with
    | some (PVal.list _) => true
    | some _ => false
    | none => true

/-- `ProjectManager.open_project` after the file has been read and
parsed: validation gates the load; any escaping exception is caught and
`False` returned. -/
def open_project (doc : PDict) (filepath : String) (st : SMState) :
    Bool × SMState :=
  if validate_project_data doc then
    match load_project_data doc st with
    | some st' =>
      (true, { st' with project_path := some filepath, unsaved_changes := false })
    | none => (false, st)
  else
    (false, st)

/-! ## Operation traces for the id-monotonicity claim -/

/-- One state-manager operation of an add/remove trace. -/
inductive SMOp where
  | addW (widget_data : PDict)
  | removeW (widget_id : String)

/-- Run a trace of add/remove operations, collecting the ids returned by
the successful `add_widget` calls; `none` when an add raises. -/
def runOps : List SMOp → SMState → Option (List String × SMState)
  | [], st => some ([], st)
  | SMOp.addW d :: rest, st =>
    match add_widget d st with
    | some (i, st') =>
      match runOps rest st' with
      | some (ids, stf) => some (i :: ids, stf)
      | none => none
    | none => none
  | SMOp.removeW i :: rest, st =>
    runOps rest (remove_widget i st).2

/-- Read one property value of a widget (navigation helper for stating
update effects). -/
def widgetPropVal (st : SMState) (i k : String) : Option PVal :=
  match dictGet? st.widgets i with
  | some w =>
    match dictGet? w "properties" with
    | some (PVal.obj ps) => dictGet? ps k
    | _ => none
  | none => none

/-- Read one slot of a widget's `colors` group. -/
def colorSlot (st : SMState) (i slot : String) : Option PVal :=
  match widgetPropVal st i "colors" with
  | some (PVal.obj cs) => dictGet? cs slot
  | _ => none

/-- A concrete widget whose `colors` group has two slots. -/
def c5_widget : PDict :=
  [("id", PVal.str "widget_1"), ("type", PVal.str "Button"),
   ("properties", PVal.obj
     [("colors", PVal.obj
       [("background", PVal.str "#000000"),
        ("foreground", PVal.str "#FFFFFF")])])]

/-- A fresh project holding `c5_widget`. -/
def c5_state : SMState :=
  { initSMState with widgets := [("widget_1", c5_widget)] }

/-- A partial update setting only `colors.background`. -/
def c5_update : PDict :=
  [("properties", PVal.obj
    [("colors", PVal.obj [("background", PVal.str "#123456")])])]

/-- A concrete trace (add, remove, add) exercising id monotonicity. -/
def c6ops : List SMOp :=
  [SMOp.addW [("type", PVal.str "Button")], SMOp.removeW "widget_1",
   SMOp.addW [("type", PVal.str "Label")]]

/-! ## Lemmas about the helpers -/

theorem dictGet?_dictInsert_self {α : Type} (m : List (String × α)) (k : String)
    (v : α) : dictGet? (dictInsert m k v) k = some v := by
  induction m with
  | nil => simp [dictInsert, dictGet?]
  | cons p rest ih =>
    obtain ⟨k', v'⟩ := p
    by_cases h : k' = k
    · simp [dictInsert, dictGet?, h]
    · simp [dictInsert, dictGet?, h, ih]

theorem dictGet?_dictInsert_ne {α : Type} (m : List (String × α))
    (k k' : String) (v : α) (h : k ≠ k') :
    dictGet? (dictInsert m k v) k' = dictGet? m k' := by
  induction m with
  | nil => simp [dictInsert, dictGet?, h]
  | cons p rest ih =>
    obtain ⟨k₀, v₀⟩ := p
    by_cases h₀ : k₀ = k
    · subst h₀
      simp [dictInsert, dictGet?, h]
    · simp [dictInsert, dictGet?, h₀, ih]

theorem natCharsGo_eq : ∀ (n f : Nat) (acc : List Char), n < f → 0 < n →
    natCharsGo f n acc = ((Nat.digits 10 n).map Nat.digitChar).reverse ++ acc := by
  intro n
  induction n using Nat.strong_induction_on with
  | _ n ih =>
    intro f acc hf hn
    cases f with
    | zero => omega
    | succ f =>
      by_cases h10 : n < 10
      · rw [Nat.digits_def' (by norm_num : 1 < 10) hn]
        rw [Nat.mod_eq_of_lt h10, Nat.div_eq_of_lt h10]
        simp [natCharsGo, h10]
      · have hdiv : n / 10 < n := Nat.div_lt_self hn (by norm_num)
        have hdivpos : 0 < n / 10 := (Nat.one_le_div_iff (by norm_num)).mpr (by omega)
        have step : natCharsGo (f + 1) n acc
            = natCharsGo f (n / 10) (Nat.digitChar (n % 10) :: acc) := by
          simp [natCharsGo, h10]
        rw [step, ih (n / 10) hdiv f _ (by omega) hdivpos]
        rw [Nat.digits_def' (by norm_num : 1 < 10) hn]
        simp

theorem natChars_zero : natChars 0 = ['0'] := rfl

theorem natChars_pos {n : Nat} (h : n ≠ 0) :
    natChars n = ((Nat.digits 10 n).map Nat.digitChar).reverse := by
  have := natCharsGo_eq n (n + 1) [] (by omega) (Nat.pos_of_ne_zero h)
  simpa [natChars] using this

theorem natChars_ne_nil (n : Nat) : natChars n ≠ [] := by
  by_cases h : n = 0
  · subst h; rw [natChars_zero]; simp
  · rw [natChars_pos h]
    intro hc
    rw [List.reverse_eq_nil_iff, List.map_eq_nil_iff] at hc
    exact (Nat.digits_ne_nil_iff_ne_zero.mpr h) hc

theorem digitChar_ne_underscore {d : Nat} (hd : d < 10) :
    Nat.digitChar d ≠ '_' := by
  interval_cases d <;> decide

theorem digitChar_inj {d e : Nat} (hd : d < 10) (he : e < 10)
    (h : Nat.digitChar d = Nat.digitChar e) : d = e := by
  interval_cases d <;> interval_cases e <;> first | rfl | (exfalso; exact absurd h (by decide))

theorem mem_natChars_ne_underscore (n : Nat) :
    ∀ c ∈ natChars n, c ≠ '_' := by
  intro c hc
  by_cases h : n = 0
  · subst h; rw [natChars_zero] at hc
    simp at hc
    subst hc; decide
  · rw [natChars_pos h] at hc
    simp only [List.mem_reverse, List.mem_map] at hc
    obtain ⟨d, hd, rfl⟩ := hc
    exact digitChar_ne_underscore (Nat.digits_lt_base (by norm_num) hd)

theorem map_digitChar_inj : ∀ (l₁ l₂ : List Nat),
    (∀ d ∈ l₁, d < 10) → (∀ d ∈ l₂, d < 10) →
    l₁.map Nat.digitChar = l₂.map Nat.digitChar → l₁ = l₂ := by
  intro l₁
  induction l₁ with
  | nil =>
    intro l₂ _ _ h
    cases l₂ with
    | nil => rfl
    | cons b t => simp at h
  | cons a t ih =>
    intro l₂ h₁ h₂ h
    cases l₂ with
    | nil => simp at h
    | cons b t₂ =>
      simp only [List.map_cons, List.cons.injEq] at h
      have ha : a < 10 := h₁ a (by simp)
      have hb : b < 10 := h₂ b (by simp)
      have : a = b := digitChar_inj ha hb h.1
      subst this
      have := ih t₂ (fun d hd => h₁ d (by simp [hd])) (fun d hd => h₂ d (by simp [hd])) h.2
      rw [this]

theorem natChars_inj {a b : Nat} (h : natChars a = natChars b) : a = b := by
  by_cases ha : a = 0 <;> by_cases hb : b = 0
  · omega
  · exfalso
    rw [ha, natChars_zero, natChars_pos hb] at h
    have h' := h.symm
    rw [List.reverse_eq_iff] at h'
    simp only [List.reverse_cons, List.reverse_nil, List.nil_append] at h'
    rcases List.map_eq_cons_iff.mp h' with ⟨d, rest, hds, hdc, hrest⟩
    have hrest' : rest = [] := by
      cases rest with
      | nil => rfl
      | cons x xs => simp at hrest
    have hd10 : d < 10 := Nat.digits_lt_base (by norm_num) (by rw [hds]; simp)
    have : d = 0 := digitChar_inj hd10 (by norm_num) hdc
    subst this
    subst hrest'
    have := Nat.ofDigits_digits 10 b
    rw [hds] at this
    simp [Nat.ofDigits] at this
    exact hb this.symm
  · exfalso
    rw [hb, natChars_zero, natChars_pos ha] at h
    rw [List.reverse_eq_iff] at h
    simp only [List.reverse_cons, List.reverse_nil, List.nil_append] at h
    rcases List.map_eq_cons_iff.mp h with ⟨d, rest, hds, hdc, hrest⟩
    have hrest' : rest = [] := by
      cases rest with
      | nil => rfl
      | cons x xs => simp at hrest
    have hd10 : d < 10 := Nat.digits_lt_base (by norm_num) (by rw [hds]; simp)
    have : d = 0 := digitChar_inj hd10 (by norm_num) hdc
    subst this
    subst hrest'
    have := Nat.ofDigits_digits 10 a
    rw [hds] at this
    simp [Nat.ofDigits] at this
    exact ha this.symm
  · rw [natChars_pos ha, natChars_pos hb] at h
    have h' := List.reverse_injective h
    have hda : ∀ d ∈ Nat.digits 10 a, d < 10 :=
      fun d hd => Nat.digits_lt_base (by norm_num) hd
    have hdb : ∀ d ∈ Nat.digits 10 b, d < 10 :=
      fun d hd => Nat.digits_lt_base (by norm_num) hd
    have := map_digitChar_inj _ _ hda hdb h'
    have h2 := congrArg (Nat.ofDigits 10) this
    rwa [Nat.ofDigits_digits, Nat.ofDigits_digits] at h2

theorem natStr_inj {a b : Nat} (h : natStr a = natStr b) : a = b := by
  unfold natStr at h
  exact natChars_inj (congrArg String.data h)

/-- Cancellation around a separator that occurs in neither left part. -/
theorem append_sep_inj : ∀ (xs₁ xs₂ ys₁ ys₂ : List Char),
    xs₁ ++ '_' :: ys₁ = xs₂ ++ '_' :: ys₂ →
    '_' ∉ xs₁ → '_' ∉ xs₂ → xs₁ = xs₂ ∧ ys₁ = ys₂ := by
  intro xs₁
  induction xs₁ with
  | nil =>
    intro xs₂ ys₁ ys₂ h _ h₂
    cases xs₂ with
    | nil => simpa using h
    | cons c t =>
      exfalso
      simp only [List.nil_append, List.cons_append, List.cons.injEq] at h
      exact h₂ (h.1 ▸ List.mem_cons_self c t)
  | cons c t ih =>
    intro xs₂ ys₁ ys₂ h h₁ h₂
    cases xs₂ with
    | nil =>
      exfalso
      simp only [List.cons_append, List.nil_append, List.cons.injEq] at h
      exact h₁ (h.1.symm ▸ List.mem_cons_self c t)
    | cons c₂ t₂ =>
      simp only [List.cons_append, List.cons.injEq] at h
      have ht := ih t₂ ys₁ ys₂ h.2
        (fun hm => h₁ (List.mem_cons_of_mem c hm))
        (fun hm => h₂ (List.mem_cons_of_mem c₂ hm))
      exact ⟨by rw [h.1, ht.1], ht.2⟩

theorem mkSfx_data (b : String) (k : Nat) :
    (mkSfx b k).data = b.data ++ '_' :: natChars k := by
  show ((b ++ "_") ++ natStr k).data = _
  rw [String.data_append, String.data_append]
  show (b.data ++ ['_']) ++ natChars k = _
  simp

theorem mkSfx_inj {b₁ b₂ : String} {k₁ k₂ : Nat}
    (h : mkSfx b₁ k₁ = mkSfx b₂ k₂) : b₁ = b₂ ∧ k₁ = k₂ := by
  have hd : b₁.data ++ '_' :: natChars k₁ = b₂.data ++ '_' :: natChars k₂ := by
    rw [← mkSfx_data, ← mkSfx_data, h]
  have hr := congrArg List.reverse hd
  simp only [List.reverse_append, List.reverse_cons, List.append_assoc,
    List.singleton_append] at hr
  have := append_sep_inj (natChars k₁).reverse (natChars k₂).reverse
    b₁.data.reverse b₂.data.reverse hr
    (by intro hm; exact mem_natChars_ne_underscore k₁ '_' (List.mem_reverse.mp hm) rfl)
    (by intro hm; exact mem_natChars_ne_underscore k₂ '_' (List.mem_reverse.mp hm) rfl)
  refine ⟨String.ext (List.reverse_injective this.2), natChars_inj (List.reverse_injective this.1)⟩

theorem mkSfx_ne_self (b : String) (k : Nat) : mkSfx b k ≠ b := by
  intro h
  have hlen := congrArg (fun s => s.data.length) h
  simp only [mkSfx_data, List.length_append, List.length_cons] at hlen
  have hpos : 0 < (natChars k).length := List.length_pos.mpr (natChars_ne_nil k)
  omega

theorem injOnIds_insert {m : List (String × String)} {i f : String}
    (hm : InjOnIds m) (hf : ¬ IsVal m f) : InjOnIds (dictInsert m i f) := by
  intro id₁ id₂ v hne h₁ h₂
  by_cases e₁ : i = id₁ <;> by_cases e₂ : i = id₂
  · exact hne (e₁ ▸ e₂)
  · subst e₁
    rw [dictGet?_dictInsert_self] at h₁
    rw [dictGet?_dictInsert_ne m _ _ _ e₂] at h₂
    exact hf ⟨id₂, by rw [h₂, ← Option.some_inj.mp h₁]⟩
  · subst e₂
    rw [dictGet?_dictInsert_self] at h₂
    rw [dictGet?_dictInsert_ne m _ _ _ e₁] at h₁
    exact hf ⟨id₁, by rw [h₁, ← Option.some_inj.mp h₂]⟩
  · rw [dictGet?_dictInsert_ne m _ _ _ e₁] at h₁
    rw [dictGet?_dictInsert_ne m _ _ _ e₂] at h₂
    exact hm id₁ id₂ v hne h₁ h₂

theorem isVal_insert {m : List (String × String)} {i f v : String}
    (h : IsVal (dictInsert m i f) v) : v = f ∨ IsVal m v := by
  obtain ⟨j, hj⟩ := h
  by_cases e : i = j
  · subst e
    rw [dictGet?_dictInsert_self] at hj
    exact Or.inl (Option.some_inj.mp hj).symm
  · rw [dictGet?_dictInsert_ne m _ _ _ e] at hj
    exact Or.inr ⟨j, hj⟩

/-- Main invariant-carrying induction for the injectivity of
`resolve_variable_names`.  `counts` entries record how many collisions a
base has had; values already in `resolved` are exactly the names emitted
so far.  The hypothesis `H` rules out a declared (sanitized) base name
colliding with a collision-suffixed name of another base. -/
theorem resolveAux_injOnIds (bases : List String) (N : Nat)
    (H : ∀ b ∈ bases, ∀ b' ∈ bases, ∀ k, 1 ≤ k → k ≤ N → b ≠ mkSfx b' k) :
    ∀ (ws : List Widget) (counts : List (String × Nat))
      (resolved : List (String × String)),
    (∀ w ∈ ws, widgetBase w ∈ bases) →
    ws.length ≤ N →
    (∀ b n, dictGet? counts b = some n → n + ws.length < N) →
    (∀ b n, dictGet? counts b = some n → b ∈ bases) →
    (∀ b ∈ bases, dictGet? counts b = none → ¬ IsVal resolved b) →
    (∀ b n, dictGet? counts b = some n →
      ∀ k, n < k → k ≤ N → ¬ IsVal resolved (mkSfx b k)) →
    (∀ b ∈ bases, dictGet? counts b = none →
      ∀ k, 1 ≤ k → k ≤ N → ¬ IsVal resolved (mkSfx b k)) →
    InjOnIds resolved →
    InjOnIds (resolveAux ws counts resolved) := by
  intro ws
  induction ws with
  | nil =>
    intro counts resolved _ _ _ _ _ _ _ hinj
    exact hinj
  | cons w rest ih =>
    intro counts resolved hb hlen hcb hkeys hc1 hc2 hc3 hinj
    have hbmem : widgetBase w ∈ bases := hb w (by simp)
    have hrest : ∀ w' ∈ rest, widgetBase w' ∈ bases :=
      fun w' h' => hb w' (List.mem_cons_of_mem w h')
    have hlen' : rest.length ≤ N := by
      simp only [List.length_cons] at hlen; omega
    cases hc : dictGet? counts (widgetBase w) with
    | some n =>
      have hn1 : n + (rest.length + 1) < N := by
        have := hcb _ n hc; simpa using this
      have hfresh : ¬ IsVal resolved (mkSfx (widgetBase w) (n + 1)) :=
        hc2 _ n hc (n + 1) (by omega) (by omega)
      have hunfold : resolveAux (w :: rest) counts resolved
          = resolveAux rest (dictInsert counts (widgetBase w) (n + 1))
              (dictInsert resolved (w.id.getD "") (mkSfx (widgetBase w) (n + 1))) := by
        simp [resolveAux, hc]
      rw [hunfold]
      apply ih
      · exact hrest
      · exact hlen'
      · intro b₀ n₀ hsome
        by_cases e : widgetBase w = b₀
        · subst e
          rw [dictGet?_dictInsert_self] at hsome
          have : n₀ = n + 1 := (Option.some_inj.mp hsome).symm
          omega
        · rw [dictGet?_dictInsert_ne _ _ _ _ e] at hsome
          have := hcb b₀ n₀ hsome
          simp only [List.length_cons] at this
          omega
      · intro b₀ n₀ hsome
        by_cases e : widgetBase w = b₀
        · exact e ▸ hbmem
        · rw [dictGet?_dictInsert_ne _ _ _ _ e] at hsome
          exact hkeys b₀ n₀ hsome
      · intro b₀ hb₀ hnone hval
        have e : widgetBase w ≠ b₀ := by
          intro e
          rw [e, dictGet?_dictInsert_self] at hnone
          exact Option.noConfusion hnone
        rw [dictGet?_dictInsert_ne _ _ _ _ e] at hnone
        rcases isVal_insert hval with heq | hold
        · exact H b₀ hb₀ _ hbmem (n + 1) (by omega) (by omega) heq
        · exact hc1 b₀ hb₀ hnone hold
      · intro b₀ n₀ hsome k hk1 hk2 hval
        rcases isVal_insert hval with heq | hold
        · obtain ⟨e1, e2⟩ := mkSfx_inj heq
          rw [e1, dictGet?_dictInsert_self] at hsome
          have : n₀ = n + 1 := (Option.some_inj.mp hsome).symm
          omega
        · by_cases e : widgetBase w = b₀
          · subst e
            rw [dictGet?_dictInsert_self] at hsome
            have hn₀ : n₀ = n + 1 := (Option.some_inj.mp hsome).symm
            exact hc2 _ n hc k (by omega) hk2 hold
          · rw [dictGet?_dictInsert_ne _ _ _ _ e] at hsome
            exact hc2 b₀ n₀ hsome k hk1 hk2 hold
      · intro b₀ hb₀ hnone k hk1 hk2 hval
        have e : widgetBase w ≠ b₀ := by
          intro e
          rw [e, dictGet?_dictInsert_self] at hnone
          exact Option.noConfusion hnone
        rw [dictGet?_dictInsert_ne _ _ _ _ e] at hnone
        rcases isVal_insert hval with heq | hold
        · exact e (mkSfx_inj heq).1.symm
        · exact hc3 b₀ hb₀ hnone k hk1 hk2 hold
      · exact injOnIds_insert hinj hfresh
    | none =>
      have hfresh : ¬ IsVal resolved (widgetBase w) := hc1 _ hbmem hc
      have hunfold : resolveAux (w :: rest) counts resolved
          = resolveAux rest (dictInsert counts (widgetBase w) 0)
              (dictInsert resolved (w.id.getD "") (widgetBase w)) := by
        simp [resolveAux, hc]
      rw [hunfold]
      apply ih
      · exact hrest
      · exact hlen'
      · intro b₀ n₀ hsome
        by_cases e : widgetBase w = b₀
        · subst e
          rw [dictGet?_dictInsert_self] at hsome
          have : n₀ = 0 := (Option.some_inj.mp hsome).symm
          simp only [List.length_cons] at hlen
          omega
        · rw [dictGet?_dictInsert_ne _ _ _ _ e] at hsome
          have := hcb b₀ n₀ hsome
          simp only [List.length_cons] at this
          omega
      · intro b₀ n₀ hsome
        by_cases e : widgetBase w = b₀
        · exact e ▸ hbmem
        · rw [dictGet?_dictInsert_ne _ _ _ _ e] at hsome
          exact hkeys b₀ n₀ hsome
      · intro b₀ hb₀ hnone hval
        have e : widgetBase w ≠ b₀ := by
          intro e
          rw [e, dictGet?_dictInsert_self] at hnone
          exact Option.noConfusion hnone
        rw [dictGet?_dictInsert_ne _ _ _ _ e] at hnone
        rcases isVal_insert hval with heq | hold
        · exact e (heq ▸ rfl)
        · exact hc1 b₀ hb₀ hnone hold
      · intro b₀ n₀ hsome k hk1 hk2 hval
        rcases isVal_insert hval with heq | hold
        · by_cases e : widgetBase w = b₀
          · subst e
            exact mkSfx_ne_self _ k heq
          · have hb₀mem : b₀ ∈ bases := by
              rw [dictGet?_dictInsert_ne _ _ _ _ e] at hsome
              exact hkeys b₀ n₀ hsome
            exact H _ hbmem b₀ hb₀mem k (by omega) hk2 heq.symm
        · by_cases e : widgetBase w = b₀
          · subst e
            rw [dictGet?_dictInsert_self] at hsome
            have hn₀ : n₀ = 0 := (Option.some_inj.mp hsome).symm
            exact hc3 _ hbmem hc k (by omega) hk2 hold
          · rw [dictGet?_dictInsert_ne _ _ _ _ e] at hsome
            exact hc2 b₀ n₀ hsome k hk1 hk2 hold
      · intro b₀ hb₀ hnone k hk1 hk2 hval
        have e : widgetBase w ≠ b₀ := by
          intro e
          rw [e, dictGet?_dictInsert_self] at hnone
          exact Option.noConfusion hnone
        rw [dictGet?_dictInsert_ne _ _ _ _ e] at hnone
        rcases isVal_insert hval with heq | hold
        · exact H _ hbmem b₀ hb₀ k hk1 hk2 heq.symm
        · exact hc3 b₀ hb₀ hnone k hk1 hk2 hold
      · exact injOnIds_insert hinj hfresh

/-- The `name_counts` dict agrees with counting occurrences in the list of
bases already consumed, so the code's fold computes the spec's per-base
occurrence numbering. -/
theorem resolveAux_eq_spec : ∀ (ws : List Widget) (counts : List (String × Nat))
    (seen : List String) (resolved : List (String × String)),
    (∀ b, dictGet? counts b =
      if seen.count b = 0 then none else some (seen.count b - 1)) →
    resolveAux ws counts resolved = resolveSpecAux ws seen resolved := by
  intro ws
  induction ws with
  | nil => intro counts seen resolved _; rfl
  | cons w rest ih =>
    intro counts seen resolved hcount
    have hkey := hcount (widgetBase w)
    by_cases hz : seen.count (widgetBase w) = 0
    · rw [hz] at hkey
      simp only [if_pos rfl] at hkey
      have hunfold : resolveAux (w :: rest) counts resolved
          = resolveAux rest (dictInsert counts (widgetBase w) 0)
              (dictInsert resolved (w.id.getD "") (widgetBase w)) := by
        simp [resolveAux, hkey]
      have hunfold' : resolveSpecAux (w :: rest) seen resolved
          = resolveSpecAux rest (seen ++ [widgetBase w])
              (dictInsert resolved (w.id.getD "") (widgetBase w)) := by
        simp [resolveSpecAux, hz]
      rw [hunfold, hunfold']
      apply ih
      intro b₀
      by_cases e : widgetBase w = b₀
      · subst e
        rw [dictGet?_dictInsert_self]
        simp [List.count_append, hz]
      · rw [dictGet?_dictInsert_ne _ _ _ _ e]
        rw [hcount b₀]
        have : (seen ++ [widgetBase w]).count b₀ = seen.count b₀ := by
          simp [List.count_append, List.count_singleton]
          intro heq
          exact absurd heq e
        rw [this]
    · have hpos : 0 < seen.count (widgetBase w) := Nat.pos_of_ne_zero hz
      rw [if_neg hz] at hkey
      have hunfold : resolveAux (w :: rest) counts resolved
          = resolveAux rest
              (dictInsert counts (widgetBase w) (seen.count (widgetBase w) - 1 + 1))
              (dictInsert resolved (w.id.getD "")
                (mkSfx (widgetBase w) (seen.count (widgetBase w) - 1 + 1))) := by
        simp [resolveAux, hkey]
      have hsub : seen.count (widgetBase w) - 1 + 1 = seen.count (widgetBase w) := by
        omega
      have hunfold' : resolveSpecAux (w :: rest) seen resolved
          = resolveSpecAux rest (seen ++ [widgetBase w])
              (dictInsert resolved (w.id.getD "")
                (mkSfx (widgetBase w) (seen.count (widgetBase w)))) := by
        simp [resolveSpecAux, hz]
      rw [hunfold, hunfold', hsub]
      apply ih
      intro b₀
      by_cases e : widgetBase w = b₀
      · subst e
        rw [dictGet?_dictInsert_self]
        have : (seen ++ [widgetBase w]).count (widgetBase w)
            = seen.count (widgetBase w) + 1 := by
          simp [List.count_append]
        rw [this]
        simp
      · rw [dictGet?_dictInsert_ne _ _ _ _ e]
        rw [hcount b₀]
        have : (seen ++ [widgetBase w]).count b₀ = seen.count b₀ := by
          simp [List.count_append, List.count_singleton]
          intro heq
          exact absurd heq e
        rw [this]

/-- **C1** (counterexample): with declared names `btn`, `btn`, `btn_1` the
mapping returned by `resolve_variable_names` sends the two distinct ids
`widget_2` and `widget_3` to the same variable name `btn_1`, so the
mapping is not injective as claimed. -/
theorem c1_counterexample :
    ¬ InjOnIds (resolve_variable_names
      [sampleWidget "widget_1" "btn", sampleWidget "widget_2" "btn",
       sampleWidget "widget_3" "btn_1"]) := by
  intro h
  exact h "widget_2" "widget_3" "btn_1" (by decide) (by decide) (by decide)

/-- **C1** (amended): the variable-name mapping returned by
`resolve_variable_names` is injective provided no widget's sanitized base
name has the collision-suffix form `base_k` (`k ≥ 1`) of another widget's
sanitized base name; without that proviso injectivity fails (see the
counterexample). -/
theorem c1_amended (ws : List Widget)
    (H : ∀ w ∈ ws, ∀ w' ∈ ws, ∀ k, k ≤ ws.length → 1 ≤ k →
      widgetBase w ≠ mkSfx (widgetBase w') k) :
    InjOnIds (resolve_variable_names ws) := by
  apply resolveAux_injOnIds (ws.map widgetBase) ws.length
  · intro b hb b' hb' k hk1 hk2
    obtain ⟨w, hw, rfl⟩ := List.mem_map.mp hb
    obtain ⟨w', hw', rfl⟩ := List.mem_map.mp hb'
    exact H w hw w' hw' k hk2 hk1
  · intro w hw
    exact List.mem_map.mpr ⟨w, hw, rfl⟩
  · exact le_refl _
  · intro b n h
    exact absurd h (by simp [dictGet?])
  · intro b n h
    exact absurd h (by simp [dictGet?])
  · intro b _ _ hval
    obtain ⟨i, hi⟩ := hval
    exact absurd hi (by simp [dictGet?])
  · intro b n h
    exact absurd h (by simp [dictGet?])
  · intro b _ _ k _ _ hval
    obtain ⟨i, hi⟩ := hval
    exact absurd hi (by simp [dictGet?])
  · intro id₁ id₂ v _ h
    exact absurd h (by simp [dictGet?])

/-- **C1** (witness): the amended theorem applied to the concrete widget
list with declared names `btn`, `btn`, `other`. -/
theorem c1_witness :
    (∀ w ∈ [sampleWidget "widget_1" "btn", sampleWidget "widget_2" "btn",
        sampleWidget "widget_3" "other"],
      ∀ w' ∈ [sampleWidget "widget_1" "btn", sampleWidget "widget_2" "btn",
        sampleWidget "widget_3" "other"],
      ∀ k, k ≤ 3 → 1 ≤ k → widgetBase w ≠ mkSfx (widgetBase w') k) ∧
    InjOnIds (resolve_variable_names
      [sampleWidget "widget_1" "btn", sampleWidget "widget_2" "btn",
       sampleWidget "widget_3" "other"]) :=
  ⟨by decide,
   c1_amended
     [sampleWidget "widget_1" "btn", sampleWidget "widget_2" "btn",
      sampleWidget "widget_3" "other"] (by decide)⟩

/-- **C2** (counterexample): the claim's example is wrong about
sanitization — `'My Btn!'` sanitizes to `My_Btn_` (every invalid
character, including the trailing `!`, is replaced by `_`, not stripped),
so the first widget resolves to `My_Btn_`, not `My_Btn`, and the second
keeps `My_Btn` with no `_1` suffix. -/
theorem c2_counterexample :
    dictGet? (resolve_variable_names
      [sampleWidget "w1" "My Btn!", sampleWidget "w2" "My_Btn",
       sampleWidget "w3" "other"]) "w1" ≠ some "My_Btn" ∧
    dictGet? (resolve_variable_names
      [sampleWidget "w1" "My Btn!", sampleWidget "w2" "My_Btn",
       sampleWidget "w3" "other"]) "w2" ≠ some "My_Btn_1" := by
  decide

/-- **C2** (amended): `resolve_variable_names` implements exactly the
specified algorithm (sanitize by replacement, `_`-prefix leading digits,
default `widget`, then per-base occurrence numbering in project order,
`base_k` from the second occurrence on); the claim's worked example
actually resolves to `My_Btn_`, `My_Btn`, `other`. -/
theorem c2_amended :
    (∀ ws : List Widget, resolve_variable_names ws = resolveSpec ws) ∧
    resolve_variable_names
      [sampleWidget "w1" "My Btn!", sampleWidget "w2" "My_Btn",
       sampleWidget "w3" "other"]
      = [("w1", "My_Btn_"), ("w2", "My_Btn"), ("w3", "other")] := by
  constructor
  · intro ws
    apply resolveAux_eq_spec
    intro b
    simp [dictGet?, List.count_nil]
  · decide

/-- **C3** (counterexample): for a widget of unrecognized type `Canvas3D`,
both generators emit an ordinary construction statement using a silent
generic fallback class (`QWidget` / `tk.Widget`); the emitted code
contains no `#` character at all, hence no placeholder comment marking
the widget unsupported. -/
theorem c3_counterexample :
    ((pyqt6_generate_widget_code (sampleTyped "widget_9" "Canvas3D" "thing")
        "self").data.all (fun c => c ≠ '#') = true) ∧
    pyqt6_widget_code_parts (sampleTyped "widget_9" "Canvas3D" "thing") "self" =
      ["self.thing = QWidget(self.central_widget)",
       "self.thing.setGeometry(0, 0, 100, 50)"] ∧
    ((tkinter_generate_widget_code (sampleTyped "widget_9" "Canvas3D" "thing")
        "self").data.all (fun c => c ≠ '#') = true) ∧
    tkinter_widget_code_parts (sampleTyped "widget_9" "Canvas3D" "thing") "self" =
      ["self.thing = tk.Widget(self.root)",
       "self.thing.place(x=0, y=0, width=100, height=50)"] := by
  decide

/-- **C3** (amended): an unsupported widget type never aborts generation —
`generate_project` still returns the output map and every widget yields
code — but the unsupported widget's construction statement silently uses
the generic fallback class (`QWidget` for PyQt6, `tk.Widget` for
Tkinter) instead of a marked placeholder. -/
theorem c3_amended (w : Widget) (p : String)
    (hpy : dictGet? pyqt6_widget_class_map (w.type_.getD "") = none)
    (htk : dictGet? tkinter_widget_class_map (w.type_.getD "") = none) :
    (pyqt6_widget_code_parts w p).head? =
      some (p ++ "." ++ sanitize_name (w.props.name.getD "widget") ++ " = " ++
        "QWidget" ++ "(" ++ p ++ ".central_widget)") ∧
    (tkinter_widget_code_parts w p).head? =
      some (
        let options_str := String.intercalate ", " (tkinter_widget_options w)
        let parent_ref := if p = "self" then p ++ ".root" else p
        if !options_str.isEmpty then
          p ++ "." ++ sanitize_name (w.props.name.getD "widget") ++ " = " ++
            "tk.Widget" ++ "(" ++ parent_ref ++ ", " ++ options_str ++ ")"
        else
          p ++ "." ++ sanitize_name (w.props.name.getD "widget") ++ " = " ++
            "tk.Widget" ++ "(" ++ parent_ref ++ ")") ∧
    (∀ proj : Project, pyqt6_generate_project proj =
      [("main" ++ pyqt6_get_file_extension, pyqt6_generate_main_file proj)]) := by
  refine ⟨?_, ?_, fun _ => rfl⟩
  · have hne : ¬(w.type_.getD "" = "Button" ∨ w.type_.getD "" = "Label" ∨
        w.type_.getD "" = "Checkbox" ∨ w.type_.getD "" = "RadioButton" ∨
        w.type_.getD "" = "GroupBox") := by
      rintro (h | h | h | h | h) <;> rw [h] at hpy <;>
        simp [pyqt6_widget_class_map, dictGet?] at hpy
    simp only [pyqt6_widget_code_parts, hpy, Option.getD_none, if_neg hne]
    rfl
  · simp only [tkinter_widget_code_parts, htk, Option.getD_none]
    by_cases h : (String.intercalate ", " (tkinter_widget_options w)).isEmpty <;>
      simp [h]

/-- **C3** (witness): the amended theorem at the concrete `Canvas3D`
widget. -/
theorem c3_witness :
    (dictGet? pyqt6_widget_class_map
      ((sampleTyped "widget_9" "Canvas3D" "thing").type_.getD "") = none) ∧
    (dictGet? tkinter_widget_class_map
      ((sampleTyped "widget_9" "Canvas3D" "thing").type_.getD "") = none) ∧
    (pyqt6_widget_code_parts (sampleTyped "widget_9" "Canvas3D" "thing")
        "self").head? =
      some ("self" ++ "." ++
        sanitize_name
          ((sampleTyped "widget_9" "Canvas3D" "thing").props.name.getD "widget") ++
        " = " ++ "QWidget" ++ "(" ++ "self" ++ ".central_widget)") :=
  ⟨by decide, by decide,
   (c3_amended (sampleTyped "widget_9" "Canvas3D" "thing") "self"
     (by decide) (by decide)).1⟩

/-- Python's `sorted` over a set is invariant under reordering of the
collected elements. -/
theorem sortedSet_perm_eq {l₁ l₂ : List String} (h : List.Perm l₁ l₂) :
    sortedSet l₁ = sortedSet l₂ := by
  apply List.eq_of_perm_of_sorted ?_ (List.sorted_insertionSort _ _)
    (List.sorted_insertionSort _ _)
  exact (List.perm_insertionSort _ _).trans
    (h.dedup.trans (List.perm_insertionSort _ _).symm)

/-- **C9**: generation is a pure function of the IR (two calls on the same
project yield the identical output map), and the import-list assembly of
`generate_imports` — built from the *set* of used widget types and then
sorted — is independent of the order of the widget list. -/
theorem c9_theorem :
    (∀ proj : Project, pyqt6_generate_project proj = pyqt6_generate_project proj) ∧
    (∀ ws₁ ws₂ : List Widget, List.Perm ws₁ ws₂ →
      pyqt6_generate_imports_widgets ws₁ = pyqt6_generate_imports_widgets ws₂) := by
  refine ⟨fun _ => rfl, fun ws₁ ws₂ hperm => ?_⟩
  have hcls : List.Perm (pyqt6_widget_classes ws₁) (pyqt6_widget_classes ws₂) := by
    unfold pyqt6_widget_classes
    exact ((hperm.filterMap _).append_left _).append_right _
  simp only [pyqt6_generate_imports_widgets]
  rw [sortedSet_perm_eq hcls]

/-- **C9** (witness): import assembly agrees on two concrete permuted
widget lists. -/
theorem c9_witness :
    List.Perm [sampleTyped "w1" "Button" "a", sampleTyped "w2" "Label" "b"]
      [sampleTyped "w2" "Label" "b", sampleTyped "w1" "Button" "a"] ∧
    pyqt6_generate_imports_widgets
        [sampleTyped "w1" "Button" "a", sampleTyped "w2" "Label" "b"]
      = pyqt6_generate_imports_widgets
        [sampleTyped "w2" "Label" "b", sampleTyped "w1" "Button" "a"] :=
  ⟨by decide, c9_theorem.2 _ _ (by decide)⟩

theorem dictGet?_eq_none {α : Type} (m : List (String × α)) (k : String)
    (h : ∀ p ∈ m, p.1 ≠ k) : dictGet? m k = none := by
  induction m with
  | nil => rfl
  | cons p rest ih =>
    obtain ⟨k', v⟩ := p
    have hk : k' ≠ k := h (k', v) (by simp)
    simp only [dictGet?, if_neg hk]
    exact ih (fun q hq => h q (List.mem_cons_of_mem _ hq))

/-- **C4** (counterexample): looking up a framework key absent from the
registry merely returns the absent result `None`; there is no
`UnknownFrameworkError` anywhere in the code, and `export_code` copes by
checking for `None`. -/
theorem c4_counterexample : get_generator "CustomTkinter" = none := by
  decide

/-- **C4** (amended): for every framework key not present in the
registry, `get_generator` returns `None` (an absent result) rather than
signalling a distinct error; callers must check for `None`. -/
theorem c4_amended (k : String)
    (h : ∀ p ∈ generators_registry, p.1 ≠ k) : get_generator k = none :=
  dictGet?_eq_none _ _ h

/-- **C4** (witness): the amended theorem at the concrete key `PyQt5`. -/
theorem c4_witness :
    (∀ p ∈ generators_registry, p.1 ≠ "PyQt5") ∧ get_generator "PyQt5" = none :=
  ⟨by decide, c4_amended "PyQt5" (by decide)⟩

/-- **C10**: removing an unknown widget id returns `False` and leaves the
whole state — widget map, counter, selection, undo stack — exactly as it
was (the membership test precedes the undo snapshot). -/
theorem c10_theorem (st : SMState) (widget_id : String)
    (h : dictGet? st.widgets widget_id = none) :
    remove_widget widget_id st = (false, st) := by
  unfold remove_widget
  simp [dictHasKey, h]

/-- **C10** (witness): removing `widget_1` from a fresh project. -/
theorem c10_witness :
    dictGet? initSMState.widgets "widget_1" = none ∧
    remove_widget "widget_1" initSMState = (false, initSMState) :=
  ⟨rfl, c10_theorem initSMState "widget_1" rfl⟩

theorem dictGet?_dictUpdate_of_none (cur upd : PDict) (k : String)
    (h : dictGet? upd k = none) :
    dictGet? (dictUpdate cur upd) k = dictGet? cur k := by
  induction upd generalizing cur with
  | nil => rfl
  | cons p rest ih =>
    obtain ⟨k', v'⟩ := p
    have hk : k' ≠ k := by
      intro e
      rw [e] at h
      simp [dictGet?] at h
    have hrest : dictGet? rest k = none := by
      simpa [dictGet?, if_neg hk] using h
    show dictGet? (dictUpdate (dictInsert cur k' v') rest) k = _
    rw [ih _ hrest, dictGet?_dictInsert_ne _ _ _ _ hk]

theorem dictGet?_dictUpdate_of_some (cur upd : PDict) (k : String) (v : PVal)
    (hnodup : (upd.map Prod.fst).Nodup)
    (h : dictGet? upd k = some v) :
    dictGet? (dictUpdate cur upd) k = some v := by
  induction upd generalizing cur with
  | nil => simp [dictGet?] at h
  | cons p rest ih =>
    obtain ⟨k', v'⟩ := p
    by_cases hk : k' = k
    · subst hk
      have hv : v' = v := by simpa [dictGet?] using h
      subst hv
      have hfresh : dictGet? rest k' = none := by
        apply dictGet?_eq_none
        intro q hq e
        simp only [List.map_cons, List.nodup_cons] at hnodup
        exact hnodup.1 (e ▸ List.mem_map_of_mem Prod.fst hq)
      show dictGet? (dictUpdate (dictInsert cur k' v') rest) k' = _
      rw [dictGet?_dictUpdate_of_none _ _ _ hfresh, dictGet?_dictInsert_self]
    · have hrest : dictGet? rest k = some v := by
        simpa [dictGet?, if_neg hk] using h
      simp only [List.map_cons, List.nodup_cons] at hnodup
      show dictGet? (dictUpdate (dictInsert cur k' v') rest) k = _
      exact ih (dictInsert cur k' v') hnodup.2 hrest

/-- **C5** (counterexample): updating only `colors.background` of a
widget wholesale-replaces the `colors` group — the sibling
`colors.foreground`, previously `#FFFFFF`, is gone after the update
(`dict.update` on `properties` is shallow, not a deep merge). -/
theorem c5_counterexample :
    colorSlot c5_state "widget_1" "foreground" = some (PVal.str "#FFFFFF") ∧
    (update_widget "widget_1" c5_update c5_state).map
      (fun st' => colorSlot st' "widget_1" "foreground") = some none ∧
    (update_widget "widget_1" c5_update c5_state).map
      (fun st' => widgetPropVal st' "widget_1" "colors") =
      some (some (PVal.obj [("background", PVal.str "#123456")])) :=
  ⟨rfl, rfl, rfl⟩

/-- **C5** (amended): partial updates merge *shallowly* at the top level
of `properties` (for widgets and for the main window alike): a property
key absent from the update keeps its previous value, while a key present
in the update — including a nested group such as `colors` — has its
value replaced outright, never deep-merged. -/
theorem c5_amended (st : SMState) (widget_id : String) (w : PDict)
    (cur upd : PDict)
    (hnodup : (upd.map Prod.fst).Nodup)
    (hw : dictGet? st.widgets widget_id = some w)
    (hcur : dictGet? w "properties" = some (PVal.obj cur)) :
    (∃ st', update_widget widget_id [("properties", PVal.obj upd)] st = some st' ∧
      ∃ w', dictGet? st'.widgets widget_id = some w' ∧
        dictGet? w' "properties" = some (PVal.obj (dictUpdate cur upd)) ∧
        (∀ k, dictGet? upd k = none →
          dictGet? (dictUpdate cur upd) k = dictGet? cur k) ∧
        (∀ k v, dictGet? upd k = some v →
          dictGet? (dictUpdate cur upd) k = some v)) ∧
    (∀ mw cur₂,
      dictGet? st.project_data "main_window" = some (PVal.obj mw) →
      dictGet? mw "properties" = some (PVal.obj cur₂) →
      ∃ st₂, update_main_window [("properties", PVal.obj upd)] st = some st₂ ∧
        ∃ mw', dictGet? st₂.project_data "main_window" = some (PVal.obj mw') ∧
          dictGet? mw' "properties" = some (PVal.obj (dictUpdate cur₂ upd))) := by
  constructor
  · have hres : update_widget widget_id [("properties", PVal.obj upd)] st =
        some { st with widgets := (dictInsert st.widgets widget_id
          (dictInsert w "properties" (PVal.obj (dictUpdate cur upd)))) } := by
      simp [update_widget, hw, dictGet?, dictHasKey, hcur, updateExceptProps]
    refine ⟨_, hres,
      dictInsert w "properties" (PVal.obj (dictUpdate cur upd)), ?_, ?_, ?_, ?_⟩
    · exact dictGet?_dictInsert_self _ _ _
    · exact dictGet?_dictInsert_self _ _ _
    · exact fun k hk => dictGet?_dictUpdate_of_none cur upd k hk
    · exact fun k v hkv => dictGet?_dictUpdate_of_some cur upd k v hnodup hkv
  · intro mw cur₂ hmw hcur₂
    have hhk : dictHasKey st.project_data "main_window" = true := by
      simp [dictHasKey, hmw]
    have hres : update_main_window [("properties", PVal.obj upd)] st =
        some { st with project_data := (dictInsert st.project_data "main_window"
          (PVal.obj (dictInsert mw "properties"
            (PVal.obj (dictUpdate cur₂ upd))))) } := by
      simp [update_main_window, hhk, hmw, dictGet?, dictHasKey, hcur₂,
        updateExceptProps]
    refine ⟨_, hres,
      dictInsert mw "properties" (PVal.obj (dictUpdate cur₂ upd)), ?_, ?_⟩
    · exact dictGet?_dictInsert_self _ _ _
    · exact dictGet?_dictInsert_self _ _ _

/-- **C5** (witness): the amended theorem at the concrete widget/update of
the counterexample's shape (a one-slot update of the `colors` group). -/
theorem c5_witness :
    ((([("colors", PVal.obj [("background", PVal.str "#123456")])] :
        PDict).map Prod.fst).Nodup) ∧
    dictGet? c5_state.widgets "widget_1" = some c5_widget ∧
    (∃ st', update_widget "widget_1"
        [("properties", PVal.obj
          [("colors", PVal.obj [("background", PVal.str "#123456")])])]
        c5_state = some st' ∧
      ∃ w', dictGet? st'.widgets "widget_1" = some w' ∧
        dictGet? w' "properties" = some (PVal.obj (dictUpdate
          [("colors", PVal.obj
            [("background", PVal.str "#000000"),
             ("foreground", PVal.str "#FFFFFF")])]
          [("colors", PVal.obj [("background", PVal.str "#123456")])])) ∧
        (∀ k, dictGet? [("colors", PVal.obj
            [("background", PVal.str "#123456")])] k = none →
          dictGet? (dictUpdate
            [("colors", PVal.obj
              [("background", PVal.str "#000000"),
               ("foreground", PVal.str "#FFFFFF")])]
            [("colors", PVal.obj [("background", PVal.str "#123456")])]) k =
          dictGet? [("colors", PVal.obj
            [("background", PVal.str "#000000"),
             ("foreground", PVal.str "#FFFFFF")])] k) ∧
        (∀ k v, dictGet? [("colors", PVal.obj
            [("background", PVal.str "#123456")])] k = some v →
          dictGet? (dictUpdate
            [("colors", PVal.obj
              [("background", PVal.str "#000000"),
               ("foreground", PVal.str "#FFFFFF")])]
            [("colors", PVal.obj [("background", PVal.str "#123456")])]) k =
          some v)) :=
  ⟨by simp, rfl,
   (c5_amended c5_state "widget_1" c5_widget
     [("colors", PVal.obj
       [("background", PVal.str "#000000"),
        ("foreground", PVal.str "#FFFFFF")])]
     [("colors", PVal.obj [("background", PVal.str "#123456")])]
     (by simp) rfl rfl).1⟩

/-- **C7**: a project document missing `name`, `framework` or
`main_window`, or whose `widgets` key holds a non-list value, fails
validation, and `open_project` then returns `False` with the state
untouched (no project state is constructed from the document). -/
theorem c7_theorem (doc : PDict) (st : SMState) (filepath : String)
    (h : dictGet? doc "name" = none ∨ dictGet? doc "framework" = none ∨
         dictGet? doc "main_window" = none ∨
         (∃ v, dictGet? doc "widgets" = some v ∧ ∀ l, v ≠ PVal.list l)) :
    validate_project_data doc = false ∧
    open_project doc filepath st = (false, st) := by
  have hv : validate_project_data doc = false := by
    unfold validate_project_data
    rcases h with h | h | h | ⟨v, hwv, hnl⟩
    · simp [dictHasKey, h]
    · by_cases hn : dictHasKey doc "name" <;> simp [dictHasKey, h, hn]
    · by_cases hn : dictHasKey doc "name" <;>
        by_cases hf : dictHasKey doc "framework" <;>
          simp [dictHasKey, h, hn, hf]
    · by_cases hn : dictHasKey doc "name" <;>
        by_cases hf : dictHasKey doc "framework" <;>
          by_cases hm : dictHasKey doc "main_window" <;>
            cases v <;> simp_all
  refine ⟨hv, ?_⟩
  unfold open_project
  rw [hv]
  simp

/-- **C7** (witness): a document with `widgets` as a dict (non-array) and
one missing `main_window` both rejected. -/
theorem c7_witness :
    (dictGet? [("name", PVal.str "P"), ("framework", PVal.str "PyQt6"),
        ("main_window", PVal.obj []), ("widgets", PVal.obj [])]
      "name" = none ∨
     dictGet? [("name", PVal.str "P"), ("framework", PVal.str "PyQt6"),
        ("main_window", PVal.obj []), ("widgets", PVal.obj [])]
      "framework" = none ∨
     dictGet? [("name", PVal.str "P"), ("framework", PVal.str "PyQt6"),
        ("main_window", PVal.obj []), ("widgets", PVal.obj [])]
      "main_window" = none ∨
     (∃ v, dictGet? [("name", PVal.str "P"), ("framework", PVal.str "PyQt6"),
        ("main_window", PVal.obj []), ("widgets", PVal.obj [])]
        "widgets" = some v ∧ ∀ l, v ≠ PVal.list l)) ∧
    validate_project_data
      [("name", PVal.str "P"), ("framework", PVal.str "PyQt6"),
       ("main_window", PVal.obj []), ("widgets", PVal.obj [])] = false ∧
    open_project
      [("name", PVal.str "P"), ("framework", PVal.str "PyQt6"),
       ("main_window", PVal.obj []), ("widgets", PVal.obj [])]
      "p.pgb" initSMState = (false, initSMState) := by
  have hyp : (∃ v, dictGet? [("name", PVal.str "P"),
      ("framework", PVal.str "PyQt6"), ("main_window", PVal.obj []),
      ("widgets", PVal.obj [])] "widgets" = some v ∧ ∀ l, v ≠ PVal.list l) :=
    ⟨PVal.obj [], rfl, fun l h => PVal.noConfusion h⟩
  have := c7_theorem
    [("name", PVal.str "P"), ("framework", PVal.str "PyQt6"),
     ("main_window", PVal.obj []), ("widgets", PVal.obj [])]
    initSMState "p.pgb" (Or.inr (Or.inr (Or.inr hyp)))
  exact ⟨Or.inr (Or.inr (Or.inr hyp)), this.1, this.2⟩

theorem add_widget_spec {d : PDict} {st : SMState} {i : String} {st' : SMState}
    (h : add_widget d st = some (i, st')) :
    i = "widget_" ++ natStr (st.widget_counter + 1) ∧
    st'.widget_counter = st.widget_counter + 1 := by
  simp only [add_widget] at h
  split at h
  · have h' := Option.some.inj h
    injection h' with h1 h2
    refine ⟨h1.symm, ?_⟩
    rw [← h2]
    rfl
  · exact Option.noConfusion h

theorem remove_widget_widget_counter (i : String) (st : SMState) :
    ((remove_widget i st).2).widget_counter = st.widget_counter := by
  unfold remove_widget
  by_cases h : dictHasKey st.widgets i
  · simp only [h, if_true]
    split <;> rfl
  · simp only [h, Bool.false_eq_true, if_false]

theorem runOps_spec : ∀ (ops : List SMOp) (st : SMState) (ids : List String)
    (stf : SMState), runOps ops st = some (ids, stf) →
    ∃ ns : List Nat, ids = ns.map (fun n => "widget_" ++ natStr n) ∧
      ns.Pairwise (· < ·) ∧ (∀ n ∈ ns, st.widget_counter < n) ∧
      st.widget_counter ≤ stf.widget_counter := by
  intro ops
  induction ops with
  | nil =>
    intro st ids stf h
    simp only [runOps, Option.some_inj, Prod.mk.injEq] at h
    refine ⟨[], by simp [← h.1], by simp, by simp, ?_⟩
    rw [← h.2]
  | cons op rest ih =>
    cases op with
    | addW d =>
      intro st ids stf h
      unfold runOps at h
      cases hadd : add_widget d st with
      | none => rw [hadd] at h; exact Option.noConfusion h
      | some p =>
        obtain ⟨i, st₁⟩ := p
        rw [hadd] at h
        dsimp only at h
        cases hrun : runOps rest st₁ with
        | none => rw [hrun] at h; exact Option.noConfusion h
        | some q =>
          obtain ⟨ids', stf'⟩ := q
          rw [hrun] at h
          simp only [Option.some_inj, Prod.mk.injEq] at h
          obtain ⟨hids, hstf⟩ := h
          obtain ⟨hi, hc⟩ := add_widget_spec hadd
          obtain ⟨ns, hmap, hpw, hgt, hle⟩ := ih st₁ ids' stf' hrun
          refine ⟨(st.widget_counter + 1) :: ns, ?_, ?_, ?_, ?_⟩
          · rw [← hids, hmap, hi]
            rfl
          · refine List.Pairwise.cons ?_ hpw
            intro n hn
            have := hgt n hn
            omega
          · intro n hn
            rcases List.mem_cons.mp hn with rfl | hn
            · omega
            · have := hgt n hn
              omega
          · have : st₁.widget_counter ≤ stf'.widget_counter := hle
            rw [← hstf]
            omega
    | removeW i =>
      intro st ids stf h
      unfold runOps at h
      obtain ⟨ns, hmap, hpw, hgt, hle⟩ := ih _ ids stf h
      have hcnt := remove_widget_widget_counter i st
      refine ⟨ns, hmap, hpw, fun n hn => ?_, ?_⟩
      · have := hgt n hn
        omega
      · omega

/-- **C6**: along every add/remove trace from a new project, the issued
widget ids are `widget_<n>` with strictly increasing numeric suffixes,
and removing a widget never decreases the counter (so freed ids are never
reissued). -/
theorem c6_theorem :
    (∀ (ops : List SMOp) (ids : List String) (stf : SMState),
      runOps ops initSMState = some (ids, stf) →
      ∃ ns : List Nat, ids = ns.map (fun n => "widget_" ++ natStr n) ∧
        ns.Pairwise (· < ·)) ∧
    (∀ (i : String) (st : SMState),
      ((remove_widget i st).2).widget_counter = st.widget_counter) := by
  constructor
  · intro ops ids stf h
    obtain ⟨ns, h1, h2, _, _⟩ := runOps_spec ops initSMState ids stf h
    exact ⟨ns, h1, h2⟩
  · exact fun i st => remove_widget_widget_counter i st

/-- **C6** (witness): the trace add, remove `widget_1`, add issues
`widget_1` then `widget_2` — the freed suffix 1 is not reissued. -/
theorem c6_witness :
    ∃ stf : SMState,
      runOps c6ops initSMState = some (["widget_1", "widget_2"], stf) ∧
      ∃ ns : List Nat,
        ["widget_1", "widget_2"] = ns.map (fun n => "widget_" ++ natStr n) ∧
        ns.Pairwise (· < ·) := by
  obtain ⟨stf, hrun⟩ :
      ∃ stf, runOps c6ops initSMState = some (["widget_1", "widget_2"], stf) :=
    ⟨_, rfl⟩
  exact ⟨stf, hrun, c6_theorem.1 c6ops _ stf hrun⟩

theorem widgetId_inj {a b : Nat}
    (h : "widget_" ++ natStr a = "widget_" ++ natStr b) : a = b := by
  have hd := congrArg String.data h
  rw [String.data_append, String.data_append] at hd
  exact natChars_inj (List.append_cancel_left hd)

theorem dictInsert_of_get_none {α : Type} {m : List (String × α)} {k : String}
    (v : α) (h : dictGet? m k = none) : dictInsert m k v = m ++ [(k, v)] := by
  induction m with
  | nil => rfl
  | cons p rest ih =>
    obtain ⟨k', v'⟩ := p
    by_cases e : k' = k
    · simp [dictGet?, e] at h
    · simp only [dictInsert, if_neg e]
      have hrest : dictGet? rest k = none := by simpa [dictGet?, e] using h
      rw [ih hrest]
      simp

theorem collect_spec : ∀ (wds : List PDict) (ns : List Nat)
    (acc : List (String × PDict)),
    List.Forall₂ (fun (wd : PDict) (n : Nat) =>
      dictGet? wd "id" = some (PVal.str ("widget_" ++ natStr n))) wds ns →
    ns.Nodup →
    (∀ n ∈ ns, ("widget_" ++ natStr n) ∉ acc.map Prod.fst) →
    ∃ r, collectWidgets (wds.map PVal.obj) acc = some r ∧
      r.map Prod.fst =
        acc.map Prod.fst ++ ns.map (fun n => "widget_" ++ natStr n) := by
  intro wds
  induction wds with
  | nil =>
    intro ns acc hf _ _
    cases hf
    exact ⟨acc, rfl, by simp⟩
  | cons wd rest ih =>
    intro ns acc hf hnd hfresh
    cases hf with
    | cons hid hf' =>
      rename_i n ns'
      have hgetnone : dictGet? acc ("widget_" ++ natStr n) = none := by
        apply dictGet?_eq_none
        intro p hp e
        exact hfresh n (by simp) (e ▸ List.mem_map_of_mem Prod.fst hp)
      have hstep : collectWidgets ((wd :: rest).map PVal.obj) acc
          = collectWidgets (rest.map PVal.obj)
              (acc ++ [("widget_" ++ natStr n, wd)]) := by
        simp only [List.map_cons, collectWidgets, hid]
        rw [dictInsert_of_get_none _ hgetnone]
      have hnd' : ns'.Nodup := (List.nodup_cons.mp hnd).2
      have hnmem : n ∉ ns' := (List.nodup_cons.mp hnd).1
      have hfresh' : ∀ n' ∈ ns',
          ("widget_" ++ natStr n') ∉
            (acc ++ [("widget_" ++ natStr n, wd)]).map Prod.fst := by
        intro n' hn' hmem
        rw [List.map_append] at hmem
        rcases List.mem_append.mp hmem with hmem | hmem
        · exact hfresh n' (by simp [hn']) hmem
        · simp at hmem
          exact hnmem (widgetId_inj hmem ▸ hn')
      obtain ⟨r, hr, hkeys⟩ :=
        ih ns' (acc ++ [("widget_" ++ natStr n, wd)]) hf' hnd' hfresh'
      refine ⟨r, by rw [hstep, hr], ?_⟩
      rw [hkeys]
      simp

theorem takeWhile_append_stop (p : Char → Bool) (X Y : List Char) (c : Char)
    (hX : ∀ a ∈ X, p a) (hc : p c = false) :
    (X ++ c :: Y).takeWhile p = X := by
  induction X with
  | nil => simp [List.takeWhile, hc]
  | cons a t ih =>
    have ha : p a = true := hX a (by simp)
    simp only [List.cons_append, List.takeWhile_cons, ha, if_true]
    rw [ih (fun b hb => hX b (by simp [hb]))]

theorem afterLastSep_widgetId (n : Nat) :
    afterLastSep ("widget_" ++ natStr n) = natStr n := by
  unfold afterLastSep
  have hdata : ("widget_" ++ natStr n).data.reverse
      = (natChars n).reverse ++ '_' :: ['t', 'e', 'g', 'd', 'i', 'w'] := by
    rw [String.data_append, List.reverse_append]
    rfl
  rw [hdata]
  rw [takeWhile_append_stop _ _ _ _
    (fun a ha => by
      have := mem_natChars_ne_underscore n a (List.mem_reverse.mp ha)
      simpa using this)
    (by decide)]
  rw [List.reverse_reverse]
  rfl

theorem mem_natChars_isDigit (n : Nat) : ∀ c ∈ natChars n, c.isDigit := by
  intro c hc
  by_cases h : n = 0
  · subst h
    rw [natChars_zero] at hc
    simp at hc
    subst hc
    decide
  · rw [natChars_pos h] at hc
    simp only [List.mem_reverse, List.mem_map] at hc
    obtain ⟨d, hd, rfl⟩ := hc
    have hd10 : d < 10 := Nat.digits_lt_base (by norm_num) hd
    interval_cases d <;> decide

theorem digitChar_val {d : Nat} (hd : d < 10) :
    (Nat.digitChar d).toNat - '0'.toNat = d := by
  interval_cases d <;> decide

theorem foldl_digits : ∀ (l : List Nat), (∀ d ∈ l, d < 10) → ∀ (acc : Nat),
    ((l.map Nat.digitChar).reverse.foldl
      (fun a c => a * 10 + (c.toNat - '0'.toNat)) acc)
      = acc * 10 ^ l.length + Nat.ofDigits 10 l := by
  intro l
  induction l with
  | nil => intro _ acc; simp [Nat.ofDigits]
  | cons d t ih =>
    intro h acc
    have hd10 : d < 10 := h d (by simp)
    have ht : ∀ e ∈ t, e < 10 := fun e he => h e (by simp [he])
    simp only [List.map_cons, List.reverse_cons, List.foldl_append,
      List.foldl_cons, List.foldl_nil]
    rw [ih ht acc, digitChar_val hd10, Nat.ofDigits_cons]
    rw [List.length_cons, pow_succ]
    ring

theorem pyIntDigits?_natStr (n : Nat) : pyIntDigits? (natStr n) = some n := by
  unfold pyIntDigits?
  have hne : (natStr n).data.isEmpty = false := by
    have h := natChars_ne_nil n
    cases hnc : natChars n with
    | nil => exact absurd hnc h
    | cons c t =>
      show (natChars n).isEmpty = false
      rw [hnc]
      rfl
  have hall : (natStr n).data.all Char.isDigit = true := by
    rw [List.all_eq_true]
    exact fun c hc => mem_natChars_isDigit n c hc
  rw [hne, hall]
  simp only [Bool.not_false, Bool.and_self, if_true]
  by_cases h : n = 0
  · subst h
    rfl
  · have hfold := foldl_digits (Nat.digits 10 n)
      (fun d hd => Nat.digits_lt_base (by norm_num) hd) 0
    have hdata : (natStr n).data = ((Nat.digits 10 n).map Nat.digitChar).reverse :=
      natChars_pos h
    rw [hdata, hfold, Nat.ofDigits_digits]
    simp

theorem suffixList_widgetIds (ns : List Nat) :
    suffixList (ns.map (fun n => "widget_" ++ natStr n)) = some ns := by
  induction ns with
  | nil => rfl
  | cons n t ih =>
    have hsw : strStartsWith ("widget_" ++ natStr n) "widget_" = true := by
      unfold strStartsWith
      rw [String.data_append]
      simp only [List.isPrefixOf_iff_prefix]
      exact List.prefix_append _ _
    simp only [List.map_cons, suffixList, hsw, if_true]
    rw [afterLastSep_widgetId, pyIntDigits?_natStr, ih]

theorem rebuildCounter_widgetIds (ns : List Nat) :
    rebuildCounter (ns.map (fun n => "widget_" ++ natStr n)) = ns.max? := by
  unfold rebuildCounter
  rw [suffixList_widgetIds]

theorem loadSettings_spec (doc : PDict) (st : SMState)
    (hcanvas : dictGet? doc "canvas_settings" = none ∨
      ∃ o, dictGet? doc "canvas_settings" = some (PVal.obj o))
    (hlayer : dictGet? doc "layer_config" = none ∨
      ∃ o, dictGet? doc "layer_config" = some (PVal.obj o))
    (hfw : dictGet? doc "framework" = none ∨
      ∃ f, dictGet? doc "framework" = some (PVal.str f)) :
    ∃ st', loadSettings doc st = some st' ∧
      st'.widget_counter = st.widget_counter := by
  unfold loadSettings
  rcases hcanvas with h | ⟨o, h⟩ <;> rw [h] <;>
    (rcases hlayer with h2 | ⟨o2, h2⟩ <;> rw [h2] <;>
      (rcases hfw with h3 | ⟨f, h3⟩ <;> rw [h3] <;> exact ⟨_, rfl, rfl⟩))

theorem add_widget_button (s : SMState) :
    ∃ s', add_widget [("type", PVal.str "Button")] s =
      some ("widget_" ++ natStr (s.widget_counter + 1), s') :=
  ⟨_, rfl⟩

/-- **C8**: loading a document whose widgets carry ids `widget_<n>`
reconstructs the widget counter as the maximum suffix `m` present
(nothing else in the document is trusted for it), and the next
`add_widget` then issues `widget_<m+1>`. -/
theorem c8_theorem (doc : PDict) (st : SMState)
    (wds : List PDict) (ns : List Nat) (m : Nat)
    (hdoc : dictGet? doc "widgets" = some (PVal.list (wds.map PVal.obj)))
    (hids : List.Forall₂ (fun (wd : PDict) (n : Nat) =>
      dictGet? wd "id" = some (PVal.str ("widget_" ++ natStr n))) wds ns)
    (hnodup : ns.Nodup)
    (hmax : ns.max? = some m)
    (hcanvas : dictGet? doc "canvas_settings" = none ∨
      ∃ o, dictGet? doc "canvas_settings" = some (PVal.obj o))
    (hlayer : dictGet? doc "layer_config" = none ∨
      ∃ o, dictGet? doc "layer_config" = some (PVal.obj o))
    (hfw : dictGet? doc "framework" = none ∨
      ∃ f, dictGet? doc "framework" = some (PVal.str f)) :
    ∃ st', load_project_data doc st = some st' ∧
      st'.widget_counter = m ∧
      ∃ st'', add_widget [("type", PVal.str "Button")] st' =
        some ("widget_" ++ natStr (m + 1), st'') := by
  obtain ⟨r, hr, hkeys⟩ := collect_spec wds ns [] hids hnodup (by simp)
  have hne : ns ≠ [] := by
    intro e
    rw [e] at hmax
    exact Option.noConfusion hmax
  have hrne : r ≠ [] := by
    intro e
    rw [e] at hkeys
    simp only [List.map_nil, List.nil_append] at hkeys
    exact hne (List.map_eq_nil_iff.mp hkeys.symm)
  unfold load_project_data
  rw [hdoc]
  dsimp only
  rw [hr]
  dsimp only
  cases r with
  | nil => exact absurd rfl hrne
  | cons a r' =>
    have hkeys' : (a :: r').map Prod.fst
        = ns.map (fun n => "widget_" ++ natStr n) := by
      simpa using hkeys
    dsimp only
    rw [hkeys', rebuildCounter_widgetIds, hmax]
    dsimp only
    obtain ⟨st', hload, hcnt⟩ := loadSettings_spec doc
      { st with project_data := doc, widgets := a :: r', widget_counter := m }
      hcanvas hlayer hfw
    rw [hload]
    refine ⟨st', rfl, hcnt, ?_⟩
    obtain ⟨st'', hadd⟩ := add_widget_button st'
    rw [hcnt] at hadd
    exact ⟨st'', hadd⟩

/-- **C8** (witness): loading a document with widget ids `widget_3` and
`widget_7` sets the counter to 7 and the next add issues `widget_8`. -/
theorem c8_witness :
    ∃ st', load_project_data
        [("widgets", PVal.list
          [PVal.obj [("id", PVal.str "widget_3")],
           PVal.obj [("id", PVal.str "widget_7")]])] initSMState = some st' ∧
      st'.widget_counter = 7 ∧
      ∃ st'', add_widget [("type", PVal.str "Button")] st' =
        some ("widget_" ++ natStr 8, st'') := by
  have h := c8_theorem
    [("widgets", PVal.list
      [PVal.obj [("id", PVal.str "widget_3")],
       PVal.obj [("id", PVal.str "widget_7")]])]
    initSMState
    [[("id", PVal.str "widget_3")], [("id", PVal.str "widget_7")]]
    [3, 7] 7 rfl
    (List.Forall₂.cons rfl (List.Forall₂.cons rfl List.Forall₂.nil))
    (by decide) (by decide) (Or.inl rfl) (Or.inl rfl) (Or.inl rfl)
  exact h

end PGB
